import Mathlib

/-! # sample-s3-uploader: shallow embedding of `main.go`

The service has three HTTP handlers (`/healthz`, `/upload`, `/list`), a
configuration resolver (`getenv_default`) and one helper (`uploadToS3`).

Everything the program does happens through its environment: the process
environment, the temporary directory of the local file system, the HTTP
library and the S3 client.  The embedding makes that environment explicit:

* `World` is the state the program can change (temporary directory, open
  descriptors, bucket contents) together with the trace of the calls it issued;
* `Oracle` holds the outcomes the environment decides for one request (random
  file names, I/O failures, store failures);
* the multipart decoder of the HTTP library is modelled on the parts the client
  sent: it reduces the declared file name to its last path element, turns a part
  without a file name into a plain value, and writes file parts that do not fit
  in memory to a `multipart-` file of the temporary directory;
* a Go `error` is its message: `Option String` for a bare `error` result and
  `Except String α` for a `(value, error)` result.
-/

namespace S3Uploader

/-- A byte sequence (`[]byte`, or the content of a file or object). -/
abbrev Bytes := List UInt8

/-! ## Process environment and configuration (`main.go` lines 17-30, 132) -/

/-- The process environment: `NAME=value` entries, first mention of a name wins. -/
abbrev Env := List (String × String)

/-- Go `os.Getenv`: the value of the variable, or the empty string when it is not present. -/
def Getenv (env : Env) (key : String) : String :=
  match env.lookup key with
  | some v => v
  | none => ""

/-- Source `getenv_default` (`main.go` 17-23). -/
def getenv_default (env : Env) (key default_value : String) : String :=
  let value := Getenv env key
  if value == "" then default_value else value

/-- Package variable `Region` (`main.go` 27). -/
def Region (env : Env) : String := getenv_default env "AWS_REGION" "us-east-1"

/-- Package variable `Bucket` (`main.go` 28). -/
def Bucket (env : Env) : String := getenv_default env "S3_BUCKET" "my-bucket"

/-- Package variable `S3KeyPath` (`main.go` 29). -/
def S3KeyPath (env : Env) : String := getenv_default env "S3_KEY_PATH" "uploads/"

/-- Local variable `port` of `main` (`main.go` 132). -/
def port (env : Env) : String := getenv_default env "PORT" "8080"

/-- The package-level configuration variables, as the handlers read them. -/
structure Config where
  Region : String
  Bucket : String
  S3KeyPath : String
deriving DecidableEq, Repr

/-- The configuration variables as initialised at program start. -/
def loadConfig (env : Env) : Config :=
  ⟨Region env, Bucket env, S3KeyPath env⟩

/-- Go `http.ResponseWriter`, as the server sees it once the handler has returned: the header
map, whether and with which code `WriteHeader` took effect, and the chunks passed to `Write`. -/
structure ResponseWriter where
  header : List (String × String)
  wroteHeader : Bool
  code : Nat
  writes : List String
deriving DecidableEq, Repr

/-- The writer a handler receives: nothing written yet. -/
def ResponseWriter.fresh : ResponseWriter := ⟨[], false, 0, []⟩

/-- The status line the client receives: 200 unless `WriteHeader` chose otherwise. -/
def ResponseWriter.status (w : ResponseWriter) : Nat :=
  if w.wroteHeader then w.code else 200

/-- The response body the client receives. -/
def ResponseWriter.body (w : ResponseWriter) : String :=
  String.join w.writes

/-- Go `ResponseWriter.WriteHeader`: the first call fixes the status code. -/
def WriteHeader (w : ResponseWriter) (statusCode : Nat) : ResponseWriter :=
  if w.wroteHeader then w else ⟨w.header, true, statusCode, w.writes⟩

/-- Go `ResponseWriter.Write`: an implicit `WriteHeader(200)` if none happened, then the data. -/
def Write (w : ResponseWriter) (data : String) : ResponseWriter :=
  let w1 := WriteHeader w 200
  ⟨w1.header, w1.wroteHeader, w1.code, w1.writes ++ [data]⟩

/-- Set one header, replacing an earlier value. -/
def setHeader (h : List (String × String)) (k v : String) : List (String × String) :=
  (k, v) :: h.filter (fun p => p.1 != k)

/-- Go `http.Error`: plain-text headers, the status code, then the message and a newline. -/
def Error (w : ResponseWriter) (error : String) (code : Nat) : ResponseWriter :=
  let h := w.header.filter (fun p => p.1 != "Content-Length")
  let h := setHeader h "Content-Type" "text/plain; charset=utf-8"
  let h := setHeader h "X-Content-Type-Options" "nosniff"
  Write (WriteHeader ⟨h, w.wroteHeader, w.code, w.writes⟩ code) (error ++ "\n")

/-- Go `http.StatusOK`. -/
def StatusOK : Nat := 200

/-- Go `http.StatusBadRequest`. -/
def StatusBadRequest : Nat := 400

/-- Go `http.StatusInternalServerError`. -/
def StatusInternalServerError : Nat := 500

/-! ## HTTP library: requests and response writers -/

/-- One part of a multipart body as the client sent it: the `name` and `filename` parameters
of its `Content-Disposition` header (empty when absent) and its content. -/
structure Part where
  FormName : String
  filename : String
  Content : Bytes

/-- Go `multipart.FileHeader`: the reported file name and size, and where the content is: in
memory (`content`), or on disk at `tmpoff` of the file `tmpfile`. -/
structure FileHeader where
  Filename : String
  Size : Nat
  content : Option Bytes
  tmpfile : String
  tmpoff : Nat

/-- Go `multipart.Form`: the decoded plain values and file parts under their field names, in
the order of the parts; the entries of one name are the slice the Go map holds for it. -/
structure Form where
  Value : List (String × Bytes)
  File : List (String × FileHeader)

/-- An incoming `http.Request`.  `Multipart` is the sequence of parts the multipart reader
yields from `Body`, or the error with which it rejects the message (not multipart, malformed,
too large); `ParseFormErr` is the error of decoding the query string, if any. -/
structure Request where
  Method : String
  URL : String
  Header : List (String × String)
  Body : Bytes
  ParseFormErr : Option String
  Multipart : Except String (List Part)

/-! ## The world: temporary directory, object store, call trace -/

/-- An open `*os.File`: the file it refers to and the current read/write offset. -/
structure File where
  name : String
  offset : Nat
deriving DecidableEq, Repr

/-- One call the program issued to its environment. -/
inductive Call where
  | CreateTemp (dir pattern : String)
  | PutObject (Bucket Key : String) (Body : Bytes) (ACL : String)
  | ListObjectsV2 (Bucket Prefix : String)
deriving DecidableEq, Repr

/-- The mutable environment of the handlers. -/
structure World where
  /-- Files of the temporary directory, name and content. -/
  tmp : List (String × Bytes)
  /-- Names of the temporary files that have an open descriptor. -/
  opened : List String
  /-- Objects of the store: bucket and key, and content. -/
  objects : List ((String × String) × Bytes)
  /-- Calls issued so far, oldest first. -/
  trace : List Call
deriving DecidableEq, Repr

/-- What the environment decides during one request. -/
structure Oracle where
  /-- Successive outputs of the random-name generator of `os.CreateTemp`. -/
  rands : List String
  /-- The operating system refuses to create the temporary file, with this error. -/
  createErr : Option String
  /-- The operating system refuses to create the decoder's `multipart-` file, with this error. -/
  spillErr : Option String
  /-- Copying fails with this error after this many bytes were written. -/
  copyErr : Option (Nat × String)
  /-- The store rejects `PutObject` with this error. -/
  putErr : Option String
  /-- The store rejects `ListObjectsV2` with this error. -/
  listErr : Option String

/-- The put calls of a trace, in order. -/
def putCalls (t : List Call) : List Call :=
  t.filter (fun c => match c with
    | .PutObject _ _ _ _ => true
    | _ => false)

/-- The list calls of a trace, in order. -/
def listCalls (t : List Call) : List Call :=
  t.filter (fun c => match c with
    | .ListObjectsV2 _ _ => true
    | _ => false)

/-- The temporary-file creations of a trace, in order. -/
def createCalls (t : List Call) : List Call :=
  t.filter (fun c => match c with
    | .CreateTemp _ _ => true
    | _ => false)

/-! ## Local file system (`os`, `io`) -/

/-- Split a `CreateTemp` pattern at its last `*` into the part before and the part after. -/
def splitPattern (pattern : String) : String × String :=
  match pattern.data.reverse.span (fun c => c != '*') with
  | (sufRev, _ :: preRev) => (String.mk preRev.reverse, String.mk sufRev.reverse)
  | (_, []) => (pattern, "")

/-- Go `os.CreateTemp`: a new, empty file whose name is the pattern with its last `*`
replaced by a random string, opened for reading and writing.  Creation is exclusive: a name
that exists is skipped and the next random string is tried, at most 10000 times. -/
def createTemp (rands : List String) (err : Option String) (s : World) (dir pattern : String) :
    Except String File × World :=
  let s1 : World := ⟨s.tmp, s.opened, s.objects, s.trace ++ [Call.CreateTemp dir pattern]⟩
  match err with
  | some e => (.error e, s1)
  | none =>
    let ps := splitPattern pattern
    match ((rands.take 10000).map (fun r => ps.1 ++ r ++ ps.2)).find?
        (fun n => (s.tmp.lookup n).isNone) with
    | none => (.error "file exists", s1)
    | some name =>
      (.ok ⟨name, 0⟩, ⟨s1.tmp ++ [(name, [])], name :: s1.opened, s1.objects, s1.trace⟩)

/-- The call `os.CreateTemp` of `uploadHandler`. -/
def CreateTemp (o : Oracle) (s : World) (dir pattern : String) : Except String File × World :=
  createTemp o.rands o.createErr s dir pattern

/-- Overwrite `data` into `old` at `offset`. -/
def writeAt (old : Bytes) (offset : Nat) (data : Bytes) : Bytes :=
  old.take offset ++ data ++ old.drop (offset + data.length)

/-- Go `(*os.File).Write` at the current offset of the descriptor. -/
def writeFile (s : World) (f : File) (data : Bytes) : File × World :=
  (⟨f.name, f.offset + data.length⟩,
   ⟨s.tmp.map (fun p => if p.1 == f.name then (p.1, writeAt p.2 f.offset data) else p),
    s.opened, s.objects, s.trace⟩)

/-- Go `io.Copy(dst, src)`: everything `src` yields is written to `dst`, unless reading or
writing fails on the way, in which case the bytes copied so far stay written. -/
def Copy (o : Oracle) (s : World) (dst : File) (src : Bytes) : Except String File × World :=
  match o.copyErr with
  | some (n, e) => (.error e, (writeFile s dst (src.take n)).2)
  | none =>
    let r := writeFile s dst src
    (.ok r.1, r.2)

/-- Go `(*os.File).Seek(offset, io.SeekStart)`. -/
def Seek (f : File) (offset : Nat) : File := ⟨f.name, offset⟩

/-- Go `(*os.File).Close`: the descriptor is released; the file stays in its directory. -/
def Close (s : World) (f : File) : World :=
  ⟨s.tmp, s.opened.erase f.name, s.objects, s.trace⟩

/-- What a reader over an open file yields: the content from the current offset on. -/
def readAll (s : World) (f : File) : Bytes :=
  match s.tmp.lookup f.name with
  | some c => c.drop f.offset
  | none => []

/-! ## Multipart decoder (`mime/multipart`, `net/http`) -/

/-- Go `filepath.Base` with `/` as separator: the last element of the path, trailing
separators removed first; `.` for the empty path and `/` for a path of separators only. -/
def Base (path : String) : String :=
  if path == "" then "."
  else
    let stripped := (path.data.reverse.dropWhile (fun c => c == '/')).reverse
    let last := (stripped.reverse.takeWhile (fun c => c != '/')).reverse
    if last.isEmpty then "/" else String.mk last

/-- Go `(*multipart.Part).FileName`: empty when the part declares no file name, otherwise
the declared name reduced to its last path element. -/
def FileName (p : Part) : String :=
  if p.filename == "" then "" else Base p.filename

/-- The loop variables of Go `(*multipart.Reader).readForm`: the form built so far, the open
spill file and the offset reached in it, and the memory still available for file content. -/
structure ReadState where
  Value : List (String × Bytes)
  File : List (String × FileHeader)
  file : Option String
  fileOff : Nat
  maxFileMemoryBytes : Nat

/-- One turn of the loop of `readForm`.  A part without a name is skipped; a part without a
file name is a plain value; a file part whose content fits the remaining memory is kept in
memory; any other file part is appended to the spill file, created on first use with
`os.CreateTemp("", "multipart-")`. -/
def readPart (o : Oracle) (st : ReadState) (s : World) (p : Part) :
    Except String ReadState × World :=
  if p.FormName == "" then (.ok st, s)
  else if FileName p == "" then
    (.ok ⟨st.Value ++ [(p.FormName, p.Content)], st.File, st.file, st.fileOff,
      st.maxFileMemoryBytes⟩, s)
  else if p.Content.length > st.maxFileMemoryBytes then
    match st.file with
    | some name =>
      (.ok ⟨st.Value,
        st.File ++ [(p.FormName, ⟨FileName p, p.Content.length, none, name, st.fileOff⟩)],
        some name, st.fileOff + p.Content.length, st.maxFileMemoryBytes⟩,
       (writeFile s ⟨name, st.fileOff⟩ p.Content).2)
    | none =>
      match createTemp o.rands o.spillErr s "" "multipart-" with
      | (.error e, s1) => (.error e, s1)
      | (.ok f, s1) =>
        (.ok ⟨st.Value,
          st.File ++ [(p.FormName, ⟨FileName p, p.Content.length, none, f.name, st.fileOff⟩)],
          some f.name, st.fileOff + p.Content.length, st.maxFileMemoryBytes⟩,
         (writeFile s1 ⟨f.name, st.fileOff⟩ p.Content).2)
  else
    (.ok ⟨st.Value,
      st.File ++ [(p.FormName, ⟨FileName p, p.Content.length, some p.Content, "", 0⟩)],
      st.file, st.fileOff, st.maxFileMemoryBytes - p.Content.length⟩, s)

/-- The loop of `readForm` over the parts of the body.  An error ends it; in this model an
error arises only while no spill file exists, so there is none to remove. -/
def readParts (o : Oracle) (st : ReadState) (s : World) :
    List Part → Except String ReadState × World
  | [] => (.ok st, s)
  | p :: ps =>
    match readPart o st s p with
    | (.error e, s1) => (.error e, s1)
    | (.ok st1, s1) => readParts o st1 s1 ps

/-- Go `(*multipart.Reader).ReadForm`: the form of the parts, with the spill file closed and
left in the temporary directory. -/
def readForm (o : Oracle) (s : World) (parts : List Part) (maxMemory : Nat) :
    Except String Form × World :=
  match readParts o ⟨[], [], none, 0, maxMemory⟩ s parts with
  | (.error e, s1) => (.error e, s1)
  | (.ok st, s1) =>
    (.ok ⟨st.Value, st.File⟩,
     match st.file with
     | some name => Close s1 ⟨name, st.fileOff⟩
     | none => s1)

/-- Go `(*http.Request).ParseMultipartForm`.  The decoded form is kept by the request, with
its spill file, until the server has called the handler; an error of the query string is
reported after the form was read. -/
def ParseMultipartForm (o : Oracle) (s : World) (r : Request) (maxMemory : Nat) :
    Except String Form × World :=
  match r.Multipart with
  | .error e => (.error e, s)
  | .ok parts =>
    match readForm o s parts maxMemory with
    | (.error e, s1) => (.error e, s1)
    | (.ok form, s1) =>
      match r.ParseFormErr with
      | some e => (.error e, s1)
      | none => (.ok form, s1)

/-- Go `(*multipart.FileHeader).Open`, read to the end: the content held in memory, or the
section of the spill file that belongs to the part. -/
def Open (s : World) (fh : FileHeader) : Except String Bytes :=
  match fh.content with
  | some b => .ok b
  | none =>
    match s.tmp.lookup fh.tmpfile with
    | some data => .ok ((data.drop fh.tmpoff).take fh.Size)
    | none => .error "open: no such file or directory"

/-- Go `(*http.Request).FormFile` on the decoded form: the first file part under `key`,
opened. -/
def FormFile (s : World) (form : Form) (key : String) : Except String (Bytes × FileHeader) :=
  match form.File.lookup key with
  | some fh =>
    match Open s fh with
    | .ok f => .ok (f, fh)
    | .error e => .error e
  | none => .error "http: no such file"

/-! ## Object store (S3 client) -/

/-- Go `strings.HasPrefix`, on the characters of the two strings. -/
def startsWith (k p : String) : Bool := p.data.isPrefixOf k.data

/-- Go `s3.PutObjectInput`, the fields the program sets. -/
structure PutObjectInput where
  Bucket : String
  Key : String
  Body : File
  ACL : String

/-- Go `s3.ListObjectsV2Input`, the fields the program sets. -/
structure ListObjectsV2Input where
  Bucket : String
  Prefix : String

/-- Go `types.Object`, the field the program reads. -/
structure Object where
  Key : String
deriving DecidableEq, Repr

/-- Go `s3.ListObjectsV2Output`, the field the program reads. -/
structure ListObjectsV2Output where
  Contents : List Object
deriving DecidableEq, Repr

/-- Go `types.ObjectCannedACLPrivate`. -/
def ObjectCannedACLPrivate : String := "private"

/-- The store's put: the body is read from the reader's current offset to its end and
becomes the whole content of the object at that bucket and key, replacing an earlier object
there.  A rejected put leaves the store as it was. -/
def PutObject (o : Oracle) (s : World) (input : PutObjectInput) : Option String × World :=
  let body := readAll s input.Body
  let s1 : World :=
    ⟨s.tmp, s.opened, s.objects,
     s.trace ++ [Call.PutObject input.Bucket input.Key body input.ACL]⟩
  match o.putErr with
  | some e => (some e, s1)
  | none =>
    (none,
     ⟨s1.tmp, s1.opened,
      ((input.Bucket, input.Key), body) ::
        s1.objects.filter (fun p => p.1 != (input.Bucket, input.Key)),
      s1.trace⟩)

/-- The store's list: the keys of the bucket that begin with the requested prefix, in the
order the store holds them, first page only (at most 1000 keys). -/
def ListObjectsV2 (o : Oracle) (s : World) (input : ListObjectsV2Input) :
    Except String ListObjectsV2Output × World :=
  let s1 : World :=
    ⟨s.tmp, s.opened, s.objects, s.trace ++ [Call.ListObjectsV2 input.Bucket input.Prefix]⟩
  match o.listErr with
  | some e => (.error e, s1)
  | none =>
    (.ok ⟨((s.objects.filter
        (fun p => p.1.1 == input.Bucket && startsWith p.1.2 input.Prefix)).take 1000).map
        (fun p => ⟨p.1.2⟩)⟩, s1)

/-! ## Formatting (`fmt`) -/

/-- Go `fmt` verb `%v` on a `[]string`: the elements separated by one space, in brackets. -/
def fmtStrings (xs : List String) : String :=
  "[" ++ " ".intercalate xs ++ "]"

/-! ## The program (`main.go` 44-126) -/

/-- Source `uploadToS3` (`main.go` 44-57). -/
def uploadToS3 (cfg : Config) (o : Oracle) (s : World) (filename : String) (file : File) :
    Option String × World :=
  match PutObject o s ⟨cfg.Bucket, cfg.S3KeyPath ++ filename, file, ObjectCannedACLPrivate⟩ with
  | (some err, s1) => (some ("failed to upload to s3: " ++ err), s1)
  | (none, s1) => (none, s1)

/-- Source `uploadHandler` (`main.go` 59-102).  The deferred `tempFile.Close()` runs on every
return after the temporary file was created; the deferred `file.Close()` of the multipart
part has no effect on the world. -/
def uploadHandler (cfg : Config) (o : Oracle) (r : Request) (w : ResponseWriter) (s : World) :
    ResponseWriter × World :=
  match ParseMultipartForm o s r (10 <<< 20) with
  | (.error _, s0) => (Error w "Unable to parse form" StatusBadRequest, s0)
  | (.ok form, s0) =>
    match FormFile s0 form "file" with
    | .error _ => (Error w "Error retrieving the file" StatusBadRequest, s0)
    | .ok (file, header) =>
      match CreateTemp o s0 "" "upload-*" with
      | (.error _, s1) => (Error w "Error creating temp file" StatusInternalServerError, s1)
      | (.ok tempFile, s1) =>
        match Copy o s1 tempFile file with
        | (.error _, s2) =>
          (Error w "Error saving file" StatusInternalServerError, Close s2 tempFile)
        | (.ok tempFile1, s2) =>
          let tempFile2 := Seek tempFile1 0
          match uploadToS3 cfg o s2 header.Filename tempFile2 with
          | (some err, s3) =>
            (Error w ("Error uploading file: " ++ err) StatusInternalServerError,
             Close s3 tempFile2)
          | (none, s3) =>
            (Write (WriteHeader w StatusOK) "File uploaded successfully!", Close s3 tempFile2)

/-- Source `listFilesHandler` (`main.go` 104-121). -/
def listFilesHandler (cfg : Config) (o : Oracle) (_r : Request) (w : ResponseWriter)
    (s : World) : ResponseWriter × World :=
  match ListObjectsV2 o s ⟨cfg.Bucket, cfg.S3KeyPath⟩ with
  | (.error err, s1) =>
    (Error w ("Error listing files: " ++ err) StatusInternalServerError, s1)
  | (.ok resp, s1) =>
    let files := resp.Contents.foldl (fun files item => files ++ [item.Key]) []
    (Write (WriteHeader w StatusOK) ("Files in S3: " ++ fmtStrings files), s1)

/-- The handler `main` registers for `/healthz` (`main.go` 124-126). -/
def healthzHandler (_cfg : Config) (_o : Oracle) (_r : Request) (w : ResponseWriter)
    (s : World) : ResponseWriter × World :=
  (WriteHeader w StatusOK, s)

/-! ## Sample inputs -/

/-- The environment with none of the four variables set. -/
def emptyEnv : Env := []

/-- An environment that sets the bucket and sets the port to the empty string. -/
def sampleEnv : Env := [("S3_BUCKET", "archive"), ("PORT", "")]

/-- The bytes of `%PDF-1.4`. -/
def pdfBytes : Bytes := [0x25, 0x50, 0x44, 0x46, 0x2d, 0x31, 0x2e, 0x34]

/-- The file part of the sample upload: field `file`, file name `report.pdf`. -/
def reportPart : Part := ⟨"file", "report.pdf", pdfBytes⟩

/-- The header the decoder builds for `reportPart`. -/
def reportHeader : FileHeader := ⟨"report.pdf", 8, some pdfBytes, "", 0⟩

/-- The form the decoder builds for the sample upload. -/
def reportForm : Form := ⟨[], [("file", reportHeader)]⟩

/-- A well-formed upload of `report.pdf`. -/
def reportRequest : Request := ⟨"POST", "/upload", [], [], none, .ok [reportPart]⟩

/-- A file part whose declared file name has a directory. -/
def nestedPart : Part := ⟨"file", "a/b.txt", [0x78]⟩

/-- An upload that declares the file name `a/b.txt`. -/
def nestedRequest : Request := ⟨"POST", "/upload", [], [], none, .ok [nestedPart]⟩

/-- An upload whose declared file name climbs out of a directory. -/
def traversalRequest : Request :=
  ⟨"POST", "/upload", [], [], none, .ok [⟨"file", "../../etc/passwd", [0x78]⟩]⟩

/-- A request whose body is not multipart form data. -/
def garbledRequest : Request :=
  ⟨"POST", "/upload", [], [1, 2, 3], none, .error "request Content-Type is not multipart/form-data"⟩

/-- A multipart request that carries a text field and no `file` part. -/
def noFileRequest : Request := ⟨"POST", "/upload", [], [], none, .ok [⟨"note", "", [0x68, 0x69]⟩]⟩

/-- Content one byte longer than the 10 MiB the handler allows in memory. -/
@[irreducible]
def bigBytes : Bytes := List.replicate (10 <<< 20 + 1) 0

/-- A multipart request without a `file` part whose only part, under the field `other`, is a
file too large to be kept in memory. -/
def bigOtherRequest : Request :=
  ⟨"POST", "/upload", [], [], none, .ok [⟨"other", "big.bin", bigBytes⟩]⟩

/-- An upload whose `file` part is too large to be kept in memory. -/
def bigFileRequest : Request :=
  ⟨"POST", "/upload", [], [], none, .ok [⟨"file", "big.bin", bigBytes⟩]⟩

/-- The header the decoder builds for the part of `bigFileRequest`. -/
def bigFileHeader : FileHeader := ⟨"big.bin", bigBytes.length, none, "multipart-1", 0⟩

/-- A plain `GET /list`. -/
def listRequest : Request :=
  ⟨"GET", "/list", [], [], none, .error "request Content-Type is not multipart/form-data"⟩

/-- An environment in which every operation succeeds. -/
def oracleOk : Oracle := ⟨["1", "2"], none, none, none, none, none⟩

/-- An environment in which the operating system refuses to create the temporary file. -/
def oracleCreateFails : Oracle := ⟨["1"], some "permission denied", none, none, none, none⟩

/-- An environment in which the copy into the temporary file fails after two bytes. -/
def oracleCopyFails : Oracle :=
  ⟨["1"], none, none, some (2, "no space left on device"), none, none⟩

/-- An environment in which the store rejects the put. -/
def oraclePutFails : Oracle := ⟨["1"], none, none, none, some "AccessDenied", none⟩

/-- An environment in which the store rejects the list. -/
def oracleListFails : Oracle := ⟨[], none, none, none, none, some "AccessDenied"⟩

/-- An empty temporary directory and an empty store. -/
def emptyWorld : World := ⟨[], [], [], []⟩

/-- A store holding two objects under `uploads/` and one elsewhere in the same bucket. -/
def twoFilesWorld : World :=
  ⟨[], [],
   [(("my-bucket", "uploads/a.txt"), [97]), (("my-bucket", "logs/x"), []),
    (("my-bucket", "uploads/b.txt"), [98])], []⟩

/-! ## Invariants of the multipart decoder -/

/-- Where the loop of `readForm` stands relative to the world `s` it started from: either no
spill file exists and the world is untouched, or one fresh spill file was created, is open,
and holds as many bytes as the offset reached. -/
def ReadInv (s : World) (st : ReadState) (w : World) : Prop :=
  match st.file with
  | none => w = s ∧ st.fileOff = 0
  | some n =>
    s.tmp.lookup n = none ∧ ∃ data, data.length = st.fileOff ∧
      w = ⟨s.tmp ++ [(n, data)], n :: s.opened, s.objects,
           s.trace ++ [Call.CreateTemp "" "multipart-"]⟩

/-- The header `fh` opens to the content `c`, and if the content is on disk it lies in the
part of the current spill file that is already written. -/
def Readable (st : ReadState) (w : World) (fh : FileHeader) (c : Bytes) : Prop :=
  Open w fh = .ok c ∧
    (fh.content = none → st.file = some fh.tmpfile ∧ fh.tmpoff + fh.Size ≤ st.fileOff)

/-- What the decoder may do to the world: add files at the end of the temporary directory and
issue `os.CreateTemp("", "multipart-")`; nothing else changes. -/
def DecoderFrame (s sp : World) : Prop :=
  ∃ spill issued, sp = ⟨s.tmp ++ spill, s.opened, s.objects, s.trace ++ issued⟩ ∧
    ∀ c ∈ issued, c = Call.CreateTemp "" "multipart-"

/-! ## Auxiliary facts about the environment model -/

theorem map_update_of_lookup_none (l : List (String × Bytes)) (n : String)
    (g : Bytes → Bytes) (h : l.lookup n = none) :
    l.map (fun p => if p.1 == n then (p.1, g p.2) else p) = l := by
  induction l with
  | nil => rfl
  | cons p l ih =>
    rw [List.lookup_eq_none_iff] at h
    have hp : p.1 ≠ n := by
      have := h p (List.mem_cons_self _ _)
      simp only [bne_iff_ne, ne_eq] at this
      exact fun e => this e.symm
    have hl : l.lookup n = none := by
      rw [List.lookup_eq_none_iff]
      intro q hq
      exact h q (List.mem_cons_of_mem _ hq)
    have hm := ih hl
    simp only [List.map_cons, beq_iff_eq, hp, if_false, List.cons.injEq, true_and]
    simpa using hm

theorem lookup_append_fresh (l : List (String × Bytes)) (n : String) (c : Bytes)
    (h : l.lookup n = none) : (l ++ [(n, c)]).lookup n = some c := by
  rw [List.lookup_append, h]
  simp

theorem createTemp_ok (rands : List String) (err : Option String) (s s1 : World)
    (dir pattern : String) (tf : File)
    (h : createTemp rands err s dir pattern = (.ok tf, s1)) :
    tf.offset = 0 ∧ s.tmp.lookup tf.name = none ∧
      s1 = ⟨s.tmp ++ [(tf.name, [])], tf.name :: s.opened, s.objects,
            s.trace ++ [Call.CreateTemp dir pattern]⟩ := by
  unfold createTemp at h
  split at h
  · simp at h
  · dsimp only at h
    split at h
    · simp at h
    · rename_i name hfind
      have hp := List.find?_some hfind
      simp only [Prod.mk.injEq, Except.ok.injEq] at h
      obtain ⟨h1, h2⟩ := h
      subst h1
      subst h2
      refine ⟨rfl, ?_, rfl⟩
      simpa using hp

theorem createTemp_error (rands : List String) (err : Option String) (s s1 : World)
    (dir pattern e : String) (h : createTemp rands err s dir pattern = (.error e, s1)) :
    s1 = ⟨s.tmp, s.opened, s.objects, s.trace ++ [Call.CreateTemp dir pattern]⟩ := by
  unfold createTemp at h
  split at h
  · simp only [Prod.mk.injEq] at h
    exact h.2.symm
  · dsimp only at h
    split at h
    · simp only [Prod.mk.injEq] at h
      exact h.2.symm
    · simp at h

theorem CreateTemp_ok (o : Oracle) (s s1 : World) (dir pattern : String) (tf : File)
    (h : CreateTemp o s dir pattern = (.ok tf, s1)) :
    tf.offset = 0 ∧ s.tmp.lookup tf.name = none ∧
      s1 = ⟨s.tmp ++ [(tf.name, [])], tf.name :: s.opened, s.objects,
            s.trace ++ [Call.CreateTemp dir pattern]⟩ :=
  createTemp_ok o.rands o.createErr s s1 dir pattern tf h

theorem CreateTemp_error (o : Oracle) (s s1 : World) (dir pattern e : String)
    (h : CreateTemp o s dir pattern = (.error e, s1)) :
    s1 = ⟨s.tmp, s.opened, s.objects, s.trace ++ [Call.CreateTemp dir pattern]⟩ :=
  createTemp_error o.rands o.createErr s s1 dir pattern e h

theorem writeFile_last (tmp : List (String × Bytes)) (op : List String)
    (ob : List ((String × String) × Bytes)) (tr : List Call) (n : String) (off : Nat)
    (old data : Bytes) (h : tmp.lookup n = none) :
    writeFile ⟨tmp ++ [(n, old)], op, ob, tr⟩ ⟨n, off⟩ data =
      (⟨n, off + data.length⟩, ⟨tmp ++ [(n, writeAt old off data)], op, ob, tr⟩) := by
  have hm := map_update_of_lookup_none tmp n (fun old => writeAt old off data) h
  simp only [writeFile, List.map_append, hm]
  simp

theorem writeFile_fresh (tmp : List (String × Bytes)) (op : List String)
    (ob : List ((String × String) × Bytes)) (tr : List Call) (n : String) (data : Bytes)
    (h : tmp.lookup n = none) :
    writeFile ⟨tmp ++ [(n, [])], op, ob, tr⟩ ⟨n, 0⟩ data =
      (⟨n, data.length⟩, ⟨tmp ++ [(n, data)], op, ob, tr⟩) := by
  rw [writeFile_last tmp op ob tr n 0 [] data h]
  simp [writeAt]

theorem writeAt_end (old data : Bytes) : writeAt old old.length data = old ++ data := by
  simp [writeAt]

theorem writeAt_nil (off : Nat) (data : Bytes) : writeAt [] off data = data := by
  simp [writeAt]

theorem section_append (data new : Bytes) (off size : Nat) (h : off + size ≤ data.length) :
    ((data ++ new).drop off).take size = (data.drop off).take size := by
  rw [List.drop_append_of_le_length (by omega)]
  rw [List.take_append_of_le_length (by simp; omega)]

theorem Base_ne_empty (path : String) : Base path ≠ "" := by
  unfold Base
  split
  · decide
  · dsimp only
    split
    · decide
    · rename_i hne
      intro h
      have h2 := congrArg String.data h
      simp only at h2
      rw [h2] at hne
      simp at hne

theorem FileName_eq_empty_iff (p : Part) : FileName p = "" ↔ p.filename = "" := by
  unfold FileName
  constructor
  · intro h
    by_contra hne
    simp only [beq_iff_eq, hne, if_false] at h
    exact Base_ne_empty _ h
  · intro h
    simp [h]

theorem FileName_of_ne (p : Part) (h : p.filename ≠ "") : FileName p = Base p.filename := by
  simp [FileName, h]

theorem Open_spilled (tmp : List (String × Bytes)) (op : List String)
    (ob : List ((String × String) × Bytes)) (tr : List Call) (n : String) (data : Bytes)
    (fh : FileHeader) (hc : fh.content = none) (hn : fh.tmpfile = n)
    (h : tmp.lookup n = none) :
    Open ⟨tmp ++ [(n, data)], op, ob, tr⟩ fh = .ok ((data.drop fh.tmpoff).take fh.Size) := by
  unfold Open
  rw [hc]
  simp only [hn, lookup_append_fresh tmp n data h]

theorem Open_in_memory (w1 w2 : World) (fh : FileHeader) (h : fh.content ≠ none) :
    Open w1 fh = Open w2 fh := by
  unfold Open
  cases hc : fh.content with
  | none => exact absurd hc h
  | some b => rfl

theorem readPart_ok (o : Oracle) (s : World) (st st1 : ReadState) (w w1 : World) (q : Part)
    (hinv : ReadInv s st w) (h : readPart o st w q = (.ok st1, w1)) :
    ReadInv s st1 w1 ∧ (∀ fh c, Readable st w fh c → Readable st1 w1 fh c) ∧
      (((q.FormName = "" ∨ q.filename = "") ∧ st1.File = st.File) ∨
        (q.FormName ≠ "" ∧ q.filename ≠ "" ∧
          ∃ fh, st1.File = st.File ++ [(q.FormName, fh)] ∧ fh.Filename = Base q.filename ∧
            Readable st1 w1 fh q.Content)) := by
  unfold readPart at h
  by_cases hn : q.FormName = ""
  · simp only [hn, beq_self_eq_true, if_true, Prod.mk.injEq, Except.ok.injEq] at h
    obtain ⟨rfl, rfl⟩ := h
    exact ⟨hinv, fun _ _ hr => hr, Or.inl ⟨Or.inl hn, rfl⟩⟩
  · have hn2 : (q.FormName == "") = false := by simpa using hn
    simp only [hn2, Bool.false_eq_true, if_false] at h
    by_cases hf : q.filename = ""
    · have hf2 : (FileName q == "") = true := by
        simpa using (FileName_eq_empty_iff q).mpr hf
      simp only [hf2, if_true, Prod.mk.injEq, Except.ok.injEq] at h
      obtain ⟨rfl, rfl⟩ := h
      exact ⟨hinv, fun _ _ hr => hr, Or.inl ⟨Or.inr hf, rfl⟩⟩
    · have hf2 : (FileName q == "") = false := by
        simpa using fun e => hf ((FileName_eq_empty_iff q).mp e)
      have hbase := FileName_of_ne q hf
      simp only [hf2, Bool.false_eq_true, if_false] at h
      by_cases hs : q.Content.length > st.maxFileMemoryBytes
      · simp only [hs, if_true] at h
        cases hfile : st.file with
        | some n =>
          simp only [hfile, Prod.mk.injEq, Except.ok.injEq] at h
          obtain ⟨rfl, rfl⟩ := h
          unfold ReadInv at hinv
          simp only [hfile] at hinv
          obtain ⟨hfresh, data, hlen, rfl⟩ := hinv
          rw [writeFile_last _ _ _ _ _ _ _ _ hfresh, ← hlen, writeAt_end]
          refine ⟨?_, ?_, Or.inr ⟨hn, hf, _, rfl, hbase, ?_, ?_⟩⟩
          · unfold ReadInv
            exact ⟨hfresh, data ++ q.Content, by simp, rfl⟩
          · intro fh c hr
            obtain ⟨hopen, hdisk⟩ := hr
            constructor
            · cases hc : fh.content with
              | some b =>
                rw [← hopen]
                exact Open_in_memory _ _ fh (by rw [hc]; simp)
              | none =>
                obtain ⟨hname, hbound⟩ := hdisk hc
                rw [hfile] at hname
                have hname2 : fh.tmpfile = n := (Option.some.inj hname).symm
                rw [Open_spilled _ _ _ _ n _ fh hc hname2 hfresh] at hopen ⊢
                rw [section_append _ _ _ _ (by omega)]
                exact hopen
            · intro hc
              obtain ⟨hname, hbound⟩ := hdisk hc
              rw [hfile] at hname
              exact ⟨hname, by simp only; omega⟩
          · rw [Open_spilled _ _ _ _ n _ _ rfl rfl hfresh]
            simp
          · intro _
            exact ⟨rfl, by simp⟩
        | none =>
          simp only [hfile] at h
          unfold ReadInv at hinv
          simp only [hfile] at hinv
          obtain ⟨rfl, hoff⟩ := hinv
          rcases hct : createTemp o.rands o.spillErr w "" "multipart-" with ⟨e | f, s1⟩
          · simp [hct] at h
          · simp only [hct, Prod.mk.injEq, Except.ok.injEq] at h
            obtain ⟨rfl, rfl⟩ := h
            obtain ⟨_, hfresh, rfl⟩ := createTemp_ok _ _ _ _ _ _ _ hct
            rw [writeFile_last _ _ _ _ _ _ _ _ hfresh, writeAt_nil, hoff]
            refine ⟨?_, ?_, Or.inr ⟨hn, hf, _, rfl, hbase, ?_, ?_⟩⟩
            · unfold ReadInv
              exact ⟨hfresh, q.Content, by simp, rfl⟩
            · intro fh c hr
              obtain ⟨hopen, hdisk⟩ := hr
              have hmem : fh.content ≠ none := by
                intro hc
                have := (hdisk hc).1
                rw [hfile] at this
                cases this
              exact ⟨by rw [← hopen]; exact Open_in_memory _ _ fh hmem,
                fun hc => absurd hc hmem⟩
            · rw [Open_spilled _ _ _ _ f.name _ _ rfl rfl hfresh]
              simp
            · intro _
              exact ⟨rfl, by simp⟩
      · simp only [hs, if_false, Prod.mk.injEq, Except.ok.injEq] at h
        obtain ⟨rfl, rfl⟩ := h
        refine ⟨hinv, fun _ _ hr => hr, Or.inr ⟨hn, hf, _, rfl, hbase, rfl, ?_⟩⟩
        intro hc
        simp at hc

theorem readPart_error (o : Oracle) (s : World) (st : ReadState) (w w1 : World) (q : Part)
    (e : String) (hinv : ReadInv s st w) (h : readPart o st w q = (.error e, w1)) :
    w1 = ⟨s.tmp, s.opened, s.objects, s.trace ++ [Call.CreateTemp "" "multipart-"]⟩ := by
  unfold readPart at h
  split at h
  · simp at h
  · split at h
    · simp at h
    · split at h
      · cases hfile : st.file with
        | some n => simp [hfile] at h
        | none =>
          simp only [hfile] at h
          unfold ReadInv at hinv
          simp only [hfile] at hinv
          obtain ⟨rfl, _⟩ := hinv
          rcases hct : createTemp o.rands o.spillErr w "" "multipart-" with ⟨e1 | f, s1⟩
          · simp only [hct, Prod.mk.injEq] at h
            rw [← h.2]
            exact createTemp_error _ _ _ _ _ _ _ hct
          · simp [hct] at h
      · simp at h

theorem readParts_ok (o : Oracle) (s : World) (ps : List Part) :
    ∀ (st st1 : ReadState) (w w1 : World), ReadInv s st w →
      readParts o st w ps = (.ok st1, w1) →
      ReadInv s st1 w1 ∧ (∀ fh c, Readable st w fh c → Readable st1 w1 fh c) ∧
        ∃ added, st1.File = st.File ++ added ∧
          ∀ kf ∈ added, ∃ q ∈ ps, q.FormName = kf.1 ∧ q.filename ≠ "" := by
  induction ps with
  | nil =>
    intro st st1 w w1 hinv h
    simp only [readParts, Prod.mk.injEq, Except.ok.injEq] at h
    obtain ⟨rfl, rfl⟩ := h
    exact ⟨hinv, fun _ _ hr => hr, [], by simp, by simp⟩
  | cons p ps ih =>
    intro st st1 w w1 hinv h
    simp only [readParts] at h
    rcases hp : readPart o st w p with ⟨e | st2, w2⟩
    · simp [hp] at h
    · simp only [hp] at h
      obtain ⟨hinv2, hkeep2, hfile2⟩ := readPart_ok o s st st2 w w2 p hinv hp
      obtain ⟨hinv3, hkeep3, added, hadd, hkeys⟩ := ih st2 st1 w2 w1 hinv2 h
      refine ⟨hinv3, fun fh c hr => hkeep3 fh c (hkeep2 fh c hr), ?_⟩
      rcases hfile2 with ⟨_, hsame⟩ | ⟨_, hfn, fh, hnew, _, _⟩
      · refine ⟨added, by rw [hadd, hsame], ?_⟩
        intro kf hkf
        obtain ⟨q, hq, hq2⟩ := hkeys kf hkf
        exact ⟨q, List.mem_cons_of_mem _ hq, hq2⟩
      · refine ⟨(p.FormName, fh) :: added, by rw [hadd, hnew]; simp, ?_⟩
        intro kf hkf
        rcases List.mem_cons.mp hkf with rfl | hkf
        · exact ⟨p, List.mem_cons_self _ _, rfl, hfn⟩
        · obtain ⟨q, hq, hq2⟩ := hkeys kf hkf
          exact ⟨q, List.mem_cons_of_mem _ hq, hq2⟩

theorem readParts_error (o : Oracle) (s : World) (ps : List Part) :
    ∀ (st : ReadState) (w w1 : World) (e : String), ReadInv s st w →
      readParts o st w ps = (.error e, w1) →
      w1 = ⟨s.tmp, s.opened, s.objects, s.trace ++ [Call.CreateTemp "" "multipart-"]⟩ := by
  induction ps with
  | nil =>
    intro st w w1 e _ h
    simp [readParts] at h
  | cons p ps ih =>
    intro st w w1 e hinv h
    simp only [readParts] at h
    rcases hp : readPart o st w p with ⟨e1 | st2, w2⟩
    · simp only [hp, Prod.mk.injEq] at h
      rw [← h.2]
      exact readPart_error o s st w w2 p e1 hinv hp
    · simp only [hp] at h
      exact ih st2 w2 w1 e (readPart_ok o s st st2 w w2 p hinv hp).1 h

theorem readParts_split (o : Oracle) (pre : List Part) (p : Part) (post : List Part) :
    ∀ (st st3 : ReadState) (w w3 : World),
      readParts o st w (pre ++ p :: post) = (.ok st3, w3) →
      ∃ st1 w1 st2 w2, readParts o st w pre = (.ok st1, w1) ∧
        readPart o st1 w1 p = (.ok st2, w2) ∧ readParts o st2 w2 post = (.ok st3, w3) := by
  induction pre with
  | nil =>
    intro st st3 w w3 h
    simp only [List.nil_append, readParts] at h
    rcases hp : readPart o st w p with ⟨e | st2, w2⟩
    · simp [hp] at h
    · simp only [hp] at h
      exact ⟨st, w, st2, w2, rfl, hp, h⟩
  | cons a pre ih =>
    intro st st3 w w3 h
    simp only [List.cons_append, readParts] at h
    rcases ha : readPart o st w a with ⟨e | sta, wa⟩
    · simp [ha] at h
    · simp only [ha] at h
      obtain ⟨st1, w1, st2, w2, h1, h2, h3⟩ := ih sta st3 wa w3 h
      exact ⟨st1, w1, st2, w2, by simp only [readParts, ha]; exact h1, h2, h3⟩

theorem ReadInv_init (s : World) (maxMemory : Nat) :
    ReadInv s ⟨[], [], none, 0, maxMemory⟩ s :=
  ⟨rfl, rfl⟩

theorem Open_Close (w : World) (f : File) (fh : FileHeader) :
    Open (Close w f) fh = Open w fh := rfl

theorem ReadInv_frame (s : World) (st : ReadState) (w : World) (h : ReadInv s st w) :
    DecoderFrame s (match st.file with
      | some name => Close w ⟨name, st.fileOff⟩
      | none => w) := by
  unfold ReadInv at h
  cases hfile : st.file with
  | none =>
    simp only [hfile] at h ⊢
    obtain ⟨rfl, _⟩ := h
    exact ⟨[], [], by simp, by simp⟩
  | some n =>
    simp only [hfile] at h ⊢
    obtain ⟨_, data, _, rfl⟩ := h
    exact ⟨[(n, data)], [Call.CreateTemp "" "multipart-"], by simp [Close], by simp⟩

theorem readForm_frame (o : Oracle) (s : World) (parts : List Part) (maxMemory : Nat) :
    DecoderFrame s (readForm o s parts maxMemory).2 := by
  unfold readForm
  rcases h : readParts o ⟨[], [], none, 0, maxMemory⟩ s parts with ⟨e | st, w⟩
  · simp only
    rw [readParts_error o s parts _ _ _ e (ReadInv_init s maxMemory) h]
    exact ⟨[], [Call.CreateTemp "" "multipart-"], by simp, by simp⟩
  · simp only
    exact ReadInv_frame s st w (readParts_ok o s parts _ _ _ _ (ReadInv_init s maxMemory) h).1

theorem ParseMultipartForm_frame (o : Oracle) (s : World) (r : Request) (maxMemory : Nat) :
    DecoderFrame s (ParseMultipartForm o s r maxMemory).2 := by
  unfold ParseMultipartForm
  cases hm : r.Multipart with
  | error e => exact ⟨[], [], by simp, by simp⟩
  | ok parts =>
    simp only
    have hf := readForm_frame o s parts maxMemory
    rcases hr : readForm o s parts maxMemory with ⟨e | form, s1⟩
    · rw [hr] at hf
      exact hf
    · rw [hr] at hf
      simp only
      cases r.ParseFormErr <;> exact hf

theorem readForm_first_file (o : Oracle) (s sp : World) (maxMemory : Nat) (form : Form)
    (pre : List Part) (p : Part) (post : List Part)
    (hpre : ∀ q ∈ pre, q.FormName = "file" → q.filename = "")
    (hname : p.FormName = "file") (hfn : p.filename ≠ "")
    (h : readForm o s (pre ++ p :: post) maxMemory = (.ok form, sp)) :
    ∃ hdr, FormFile sp form "file" = .ok (p.Content, hdr) ∧ hdr.Filename = Base p.filename := by
  unfold readForm at h
  rcases hr : readParts o ⟨[], [], none, 0, maxMemory⟩ s (pre ++ p :: post) with ⟨e | st3, w3⟩
  · simp [hr] at h
  · simp only [hr, Prod.mk.injEq, Except.ok.injEq] at h
    obtain ⟨rfl, rfl⟩ := h
    obtain ⟨st1, w1, st2, w2, h1, h2, h3⟩ := readParts_split o pre p post _ _ _ _ hr
    obtain ⟨hinv1, _, added1, hadd1, hkeys1⟩ :=
      readParts_ok o s pre _ _ _ _ (ReadInv_init s maxMemory) h1
    obtain ⟨hinv2, _, hfile2⟩ := readPart_ok o s st1 st2 w1 w2 p hinv1 h2
    obtain ⟨_, hkeep3, added3, hadd3, _⟩ := readParts_ok o s post _ _ _ _ hinv2 h3
    rcases hfile2 with ⟨hbad, _⟩ | ⟨_, _, hdr, hnew, hbase, hread⟩
    · rcases hbad with hbad | hbad
      · rw [hname] at hbad
        exact absurd hbad (by decide)
      · exact absurd hbad hfn
    · have hnone : st1.File.lookup "file" = none := by
        rw [hadd1, List.nil_append, List.lookup_eq_none_iff]
        intro kf hkf
        obtain ⟨q, hq, hq1, hq2⟩ := hkeys1 kf hkf
        simp only [bne_iff_ne, ne_eq]
        intro hk
        exact hq2 (hpre q hq (by rw [hq1, ← hk]))
      have hlook : st3.File.lookup "file" = some hdr := by
        rw [hadd3, hnew, hname, List.lookup_append, List.lookup_append, hnone]
        simp
      have hopen := (hkeep3 hdr p.Content hread).1
      refine ⟨hdr, ?_, hbase⟩
      unfold FormFile
      simp only [hlook]
      have hopen2 : Open (match st3.file with
          | some name => Close w3 ⟨name, st3.fileOff⟩
          | none => w3) hdr = .ok p.Content := by
        cases st3.file with
        | none => exact hopen
        | some n => exact hopen
      rw [hopen2]

theorem ParseMultipartForm_first_file (o : Oracle) (s sp : World) (r : Request)
    (maxMemory : Nat) (form : Form) (pre : List Part) (p : Part) (post : List Part)
    (hparts : r.Multipart = .ok (pre ++ p :: post))
    (hpre : ∀ q ∈ pre, q.FormName = "file" → q.filename = "")
    (hname : p.FormName = "file") (hfn : p.filename ≠ "")
    (h : ParseMultipartForm o s r maxMemory = (.ok form, sp)) :
    ∃ hdr, FormFile sp form "file" = .ok (p.Content, hdr) ∧ hdr.Filename = Base p.filename := by
  unfold ParseMultipartForm at h
  rw [hparts] at h
  simp only at h
  rcases hr : readForm o s (pre ++ p :: post) maxMemory with ⟨e | form1, s1⟩
  · simp [hr] at h
  · simp only [hr] at h
    cases hq : r.ParseFormErr with
    | some e => simp [hq] at h
    | none =>
      simp only [hq, Prod.mk.injEq, Except.ok.injEq] at h
      obtain ⟨rfl, rfl⟩ := h
      exact readForm_first_file o s _ maxMemory _ pre p post hpre hname hfn hr

/-- The three exits of `uploadHandler` once the temporary file exists: failed copy, failed put,
success.  In each the world is given in full, from the world `sp` the decoder left. -/
theorem uploadHandler_staged (cfg : Config) (o : Oracle) (r : Request) (w : ResponseWriter)
    (s sp s1 : World) (form : Form) (c : Bytes) (hdr : FileHeader) (tf : File)
    (hparse : ParseMultipartForm o s r (10 <<< 20) = (.ok form, sp))
    (hfile : FormFile sp form "file" = .ok (c, hdr))
    (hcreate : CreateTemp o sp "" "upload-*" = (.ok tf, s1)) :
    uploadHandler cfg o r w s =
      match o.copyErr with
      | some (n, _) =>
        (Error w "Error saving file" StatusInternalServerError,
         ⟨sp.tmp ++ [(tf.name, c.take n)], sp.opened, sp.objects,
          sp.trace ++ [Call.CreateTemp "" "upload-*"]⟩)
      | none =>
        match o.putErr with
        | some e =>
          (Error w ("Error uploading file: " ++ ("failed to upload to s3: " ++ e))
             StatusInternalServerError,
           ⟨sp.tmp ++ [(tf.name, c)], sp.opened, sp.objects,
            sp.trace ++ [Call.CreateTemp "" "upload-*",
              Call.PutObject cfg.Bucket (cfg.S3KeyPath ++ hdr.Filename) c
                ObjectCannedACLPrivate]⟩)
        | none =>
          (Write (WriteHeader w StatusOK) "File uploaded successfully!",
           ⟨sp.tmp ++ [(tf.name, c)], sp.opened,
            ((cfg.Bucket, cfg.S3KeyPath ++ hdr.Filename), c) ::
              sp.objects.filter (fun p => p.1 != (cfg.Bucket, cfg.S3KeyPath ++ hdr.Filename)),
            sp.trace ++ [Call.CreateTemp "" "upload-*",
              Call.PutObject cfg.Bucket (cfg.S3KeyPath ++ hdr.Filename) c
                ObjectCannedACLPrivate]⟩) := by
  obtain ⟨hoff, hfresh, hs1⟩ := CreateTemp_ok o sp s1 "" "upload-*" tf hcreate
  obtain ⟨n, off⟩ := tf
  simp only at hoff hfresh hs1
  subst hoff
  subst hs1
  unfold uploadHandler
  simp only [hparse, hfile, hcreate]
  cases hc : o.copyErr with
  | some ne =>
    obtain ⟨k, e⟩ := ne
    simp [Copy, hc, writeFile_fresh _ _ _ _ _ _ hfresh, Close]
  | none =>
    cases hp : o.putErr with
    | some e =>
      simp [Copy, hc, writeFile_fresh _ _ _ _ _ _ hfresh, Close, uploadToS3, PutObject, hp,
        Seek, readAll, lookup_append_fresh _ _ _ hfresh]
    | none =>
      simp [Copy, hc, writeFile_fresh _ _ _ _ _ _ hfresh, Close, uploadToS3, PutObject, hp,
        Seek, readAll, lookup_append_fresh _ _ _ hfresh]

theorem Error_fresh (msg : String) (code : Nat) :
    Error ResponseWriter.fresh msg code =
      ⟨[("X-Content-Type-Options", "nosniff"), ("Content-Type", "text/plain; charset=utf-8")],
       true, code, [msg ++ "\n"]⟩ := by
  rfl

theorem body_of_writes_singleton (h : List (String × String)) (b : Bool) (code : Nat)
    (x : String) : (ResponseWriter.mk h b code [x]).body = x := by
  simp [ResponseWriter.body, String.join]

theorem Write_fresh (msg : String) :
    Write (WriteHeader ResponseWriter.fresh StatusOK) msg = ⟨[], true, 200, [msg]⟩ := by
  rfl

theorem uploadHandler_parse_error (cfg : Config) (o : Oracle) (r : Request) (w : ResponseWriter)
    (s sp : World) (e : String)
    (h : ParseMultipartForm o s r (10 <<< 20) = (.error e, sp)) :
    uploadHandler cfg o r w s = (Error w "Unable to parse form" StatusBadRequest, sp) := by
  unfold uploadHandler
  simp only [h]

theorem uploadHandler_file_error (cfg : Config) (o : Oracle) (r : Request) (w : ResponseWriter)
    (s sp : World) (form : Form) (e : String)
    (hparse : ParseMultipartForm o s r (10 <<< 20) = (.ok form, sp))
    (h : FormFile sp form "file" = .error e) :
    uploadHandler cfg o r w s = (Error w "Error retrieving the file" StatusBadRequest, sp) := by
  unfold uploadHandler
  simp only [hparse, h]

theorem uploadHandler_create_error (cfg : Config) (o : Oracle) (r : Request)
    (w : ResponseWriter) (s sp s1 : World) (form : Form) (c : Bytes) (hdr : FileHeader)
    (e : String)
    (hparse : ParseMultipartForm o s r (10 <<< 20) = (.ok form, sp))
    (hfile : FormFile sp form "file" = .ok (c, hdr))
    (hcreate : CreateTemp o sp "" "upload-*" = (.error e, s1)) :
    uploadHandler cfg o r w s =
      (Error w "Error creating temp file" StatusInternalServerError,
       ⟨sp.tmp, sp.opened, sp.objects, sp.trace ++ [Call.CreateTemp "" "upload-*"]⟩) := by
  have hs1 := CreateTemp_error o sp s1 "" "upload-*" e hcreate
  subst hs1
  unfold uploadHandler
  simp only [hparse, hfile, hcreate]

theorem FormFile_no_part (sp : World) (form : Form) (h : form.File.lookup "file" = none) :
    FormFile sp form "file" = .error "http: no such file" := by
  unfold FormFile
  rw [h]

theorem putCalls_issued (issued : List Call)
    (h : ∀ c ∈ issued, c = Call.CreateTemp "" "multipart-") : putCalls issued = [] := by
  unfold putCalls
  rw [List.filter_eq_nil_iff]
  intro c hc
  rw [h c hc]
  simp

theorem putCalls_append (a b : List Call) : putCalls (a ++ b) = putCalls a ++ putCalls b := by
  simp [putCalls, List.filter_append]

theorem putCalls_decoded (o : Oracle) (s : World) (r : Request) (maxMemory : Nat) :
    putCalls (ParseMultipartForm o s r maxMemory).2.trace = putCalls s.trace := by
  obtain ⟨spill, issued, hsp, hiss⟩ := ParseMultipartForm_frame o s r maxMemory
  rw [hsp]
  simp [putCalls_append, putCalls_issued issued hiss]

theorem foldl_append_keys (l : List Object) (acc : List String) :
    l.foldl (fun files item => files ++ [item.Key]) acc = acc ++ l.map (fun item => item.Key) := by
  induction l generalizing acc with
  | nil => simp
  | cons x l ih => simp [ih]

theorem startsWith_append (p f : String) : startsWith (p ++ f) p = true := by
  simp [startsWith]

theorem error_line_ne_success (e : String) :
    "Error uploading file: " ++ ("failed to upload to s3: " ++ e) ++ "\n" ≠
      "File uploaded successfully!" := by
  intro h
  have h2 := congrArg String.data h
  simp only [String.data_append] at h2
  have h3 := congrArg List.head? h2
  simp at h3

theorem listFilesHandler_eq (cfg : Config) (o : Oracle) (r : Request) (w : ResponseWriter)
    (s : World) :
    listFilesHandler cfg o r w s =
      match o.listErr with
      | some e =>
        (Error w ("Error listing files: " ++ e) StatusInternalServerError,
         ⟨s.tmp, s.opened, s.objects, s.trace ++ [Call.ListObjectsV2 cfg.Bucket cfg.S3KeyPath]⟩)
      | none =>
        (Write (WriteHeader w StatusOK) ("Files in S3: " ++ fmtStrings
          (((s.objects.filter
            (fun p => p.1.1 == cfg.Bucket && startsWith p.1.2 cfg.S3KeyPath)).take 1000).map
            (fun p => p.1.2))),
         ⟨s.tmp, s.opened, s.objects,
          s.trace ++ [Call.ListObjectsV2 cfg.Bucket cfg.S3KeyPath]⟩) := by
  unfold listFilesHandler ListObjectsV2
  cases o.listErr with
  | some e => rfl
  | none =>
    simp only [foldl_append_keys, List.nil_append, List.map_map]
    rfl

theorem listFilesHandler_ok (cfg : Config) (o : Oracle) (r : Request) (w : ResponseWriter)
    (s s1 : World) (resp : ListObjectsV2Output)
    (h : ListObjectsV2 o s ⟨cfg.Bucket, cfg.S3KeyPath⟩ = (.ok resp, s1)) :
    listFilesHandler cfg o r w s =
      (Write (WriteHeader w StatusOK)
        ("Files in S3: " ++ fmtStrings (resp.Contents.map (fun item => item.Key))), s1) := by
  unfold listFilesHandler
  simp only [h, foldl_append_keys, List.nil_append]

theorem listFilesHandler_error (cfg : Config) (o : Oracle) (r : Request) (w : ResponseWriter)
    (s s1 : World) (e : String)
    (h : ListObjectsV2 o s ⟨cfg.Bucket, cfg.S3KeyPath⟩ = (.error e, s1)) :
    listFilesHandler cfg o r w s =
      (Error w ("Error listing files: " ++ e) StatusInternalServerError, s1) := by
  unfold listFilesHandler
  simp only [h]

theorem ListObjectsV2_keys (o : Oracle) (s s1 : World) (input : ListObjectsV2Input)
    (resp : ListObjectsV2Output) (h : ListObjectsV2 o s input = (.ok resp, s1)) :
    ∀ item ∈ resp.Contents, startsWith item.Key input.Prefix = true := by
  unfold ListObjectsV2 at h
  split at h
  · simp at h
  · simp only [Prod.mk.injEq, Except.ok.injEq] at h
    obtain ⟨h1, _⟩ := h
    subst h1
    intro item hitem
    simp only [List.mem_map] at hitem
    obtain ⟨p, hp, rfl⟩ := hitem
    have hp2 := List.mem_filter.mp (List.mem_of_mem_take hp)
    have hp3 := hp2.2
    simp only [Bool.and_eq_true] at hp3
    exact hp3.2

theorem readPart_first_spill (o : Oracle) (st : ReadState) (s s1 : World) (p : Part) (f : File)
    (hn : p.FormName ≠ "") (hf : p.filename ≠ "")
    (hbig : p.Content.length > st.maxFileMemoryBytes) (hfile : st.file = none)
    (hct : createTemp o.rands o.spillErr s "" "multipart-" = (.ok f, s1)) :
    readPart o st s p =
      (.ok ⟨st.Value,
        st.File ++ [(p.FormName, ⟨Base p.filename, p.Content.length, none, f.name, st.fileOff⟩)],
        some f.name, st.fileOff + p.Content.length, st.maxFileMemoryBytes⟩,
       ⟨s.tmp ++ [(f.name, p.Content)], f.name :: s.opened, s.objects,
        s.trace ++ [Call.CreateTemp "" "multipart-"]⟩) := by
  obtain ⟨_, hfresh, rfl⟩ := createTemp_ok _ _ _ _ _ _ _ hct
  have hn2 : (p.FormName == "") = false := by simpa using hn
  have hf2 : (FileName p == "") = false := by
    simpa using fun e => hf ((FileName_eq_empty_iff p).mp e)
  unfold readPart
  simp only [hn2, hf2, Bool.false_eq_true, if_false, hbig, if_true, hfile, hct]
  simp only [writeFile_last _ _ _ _ _ _ _ _ hfresh, writeAt_nil, FileName_of_ne p hf]

theorem bigBytes_length : bigBytes.length > 10 <<< 20 := by
  unfold bigBytes
  rw [List.length_replicate]
  exact Nat.lt_succ_self _

/-- The decoder on a request without a `file` part whose only part, under the field `other`,
is too large for the memory allowed: the part is spilled to `multipart-1`. -/
theorem ParseMultipartForm_spilled_other (c : Bytes) (hc : c.length > 10 <<< 20) :
    ParseMultipartForm oracleOk emptyWorld
        ⟨"POST", "/upload", [], [], none, .ok [⟨"other", "big.bin", c⟩]⟩ (10 <<< 20) =
      (.ok ⟨[], [("other", ⟨"big.bin", c.length, none, "multipart-1", 0⟩)]⟩,
       ⟨[("multipart-1", c)], [], [], [Call.CreateTemp "" "multipart-"]⟩) := by
  have hpart : readPart oracleOk ⟨[], [], none, 0, 10 <<< 20⟩ emptyWorld
      ⟨"other", "big.bin", c⟩ =
      (.ok ⟨[], [("other", ⟨"big.bin", c.length, none, "multipart-1", 0⟩)],
        some "multipart-1", 0 + c.length, 10 <<< 20⟩,
       ⟨[("multipart-1", c)], ["multipart-1"], [], [Call.CreateTemp "" "multipart-"]⟩) :=
    readPart_first_spill oracleOk ⟨[], [], none, 0, 10 <<< 20⟩ emptyWorld
      ⟨[("multipart-1", [])], ["multipart-1"], [], [Call.CreateTemp "" "multipart-"]⟩
      ⟨"other", "big.bin", c⟩ ⟨"multipart-1", 0⟩
      (show "other" ≠ "" by decide) (show "big.bin" ≠ "" by decide) hc rfl rfl
  simp only [ParseMultipartForm, readForm, readParts, hpart]
  rfl

/-- The run of `uploadHandler` on that request: the form has no `file` entry, and the handler
answers 400 with the spill file in the temporary directory. -/
theorem uploadHandler_spilled_other (cfg : Config) (c : Bytes) (hc : c.length > 10 <<< 20) :
    uploadHandler cfg oracleOk
        ⟨"POST", "/upload", [], [], none, .ok [⟨"other", "big.bin", c⟩]⟩
        ResponseWriter.fresh emptyWorld =
      (Error ResponseWriter.fresh "Error retrieving the file" StatusBadRequest,
       ⟨[("multipart-1", c)], [], [], [Call.CreateTemp "" "multipart-"]⟩) :=
  uploadHandler_file_error cfg oracleOk _ _ emptyWorld _ _ _
    (ParseMultipartForm_spilled_other c hc) (FormFile_no_part _ _ rfl)

/-- The decoder on a request whose only part is a `file` part too large for the memory
allowed: the part is spilled to `multipart-1` and opens to its content. -/
theorem ParseMultipartForm_spilled_file (c : Bytes) (hc : c.length > 10 <<< 20) :
    ParseMultipartForm oracleOk emptyWorld
        ⟨"POST", "/upload", [], [], none, .ok [⟨"file", "big.bin", c⟩]⟩ (10 <<< 20) =
      (.ok ⟨[], [("file", ⟨"big.bin", c.length, none, "multipart-1", 0⟩)]⟩,
       ⟨[("multipart-1", c)], [], [], [Call.CreateTemp "" "multipart-"]⟩) := by
  have hpart : readPart oracleOk ⟨[], [], none, 0, 10 <<< 20⟩ emptyWorld
      ⟨"file", "big.bin", c⟩ =
      (.ok ⟨[], [("file", ⟨"big.bin", c.length, none, "multipart-1", 0⟩)],
        some "multipart-1", 0 + c.length, 10 <<< 20⟩,
       ⟨[("multipart-1", c)], ["multipart-1"], [], [Call.CreateTemp "" "multipart-"]⟩) :=
    readPart_first_spill oracleOk ⟨[], [], none, 0, 10 <<< 20⟩ emptyWorld
      ⟨[("multipart-1", [])], ["multipart-1"], [], [Call.CreateTemp "" "multipart-"]⟩
      ⟨"file", "big.bin", c⟩ ⟨"multipart-1", 0⟩
      (show "file" ≠ "" by decide) (show "big.bin" ≠ "" by decide) hc rfl rfl
  simp only [ParseMultipartForm, readForm, readParts, hpart]
  rfl

theorem FormFile_spilled_file (c : Bytes) (op : List String)
    (ob : List ((String × String) × Bytes)) (tr : List Call) :
    FormFile ⟨[("multipart-1", c)], op, ob, tr⟩
        ⟨[], [("file", ⟨"big.bin", c.length, none, "multipart-1", 0⟩)]⟩ "file" =
      .ok (c, ⟨"big.bin", c.length, none, "multipart-1", 0⟩) := by
  have hl : List.lookup "file"
      [("file", (⟨"big.bin", c.length, none, "multipart-1", 0⟩ : FileHeader))] =
      some ⟨"big.bin", c.length, none, "multipart-1", 0⟩ := rfl
  have hl2 : List.lookup "multipart-1" [("multipart-1", c)] = some c := rfl
  simp only [FormFile, hl, Open, hl2, List.drop_zero, List.take_length]

/-! ## Claims -/

/-- C1, as stated, fails: for the declared file name `a/b.txt` the put goes to key
`uploads/b.txt`, not to `S3KeyPath ++ f`. -/
theorem uploadHandler_key_is_not_declared_name :
    putCalls (uploadHandler (loadConfig emptyEnv) oracleOk nestedRequest ResponseWriter.fresh
        emptyWorld).2.trace =
        [Call.PutObject "my-bucket" "uploads/b.txt" [0x78] "private"] ∧
      putCalls (uploadHandler (loadConfig emptyEnv) oracleOk nestedRequest ResponseWriter.fresh
        emptyWorld).2.trace ≠
        putCalls emptyWorld.trace ++
          [Call.PutObject (loadConfig emptyEnv).Bucket
            ((loadConfig emptyEnv).S3KeyPath ++ nestedPart.filename) nestedPart.Content
            ObjectCannedACLPrivate] := by
  decide

/-- C1, amended: let the multipart body parse, and let its first file part under the field
`file` (a part with that name and a non-empty declared file name `f`) have content `c`.  If
the temporary file is created and written and the put is accepted, `uploadHandler` issues
exactly one put, with the configured bucket, key `S3KeyPath ++ Base f` (the last path element
of `f`, which the decoder reports as `header.Filename` and the handler uses as it is) and a
body equal to `c`, and answers 200 with body `File uploaded successfully!`. -/
theorem uploadHandler_success (cfg : Config) (o : Oracle) (r : Request) (s sp s1 : World)
    (form : Form) (pre : List Part) (p : Part) (post : List Part) (tf : File)
    (hparts : r.Multipart = .ok (pre ++ p :: post))
    (hpre : ∀ q ∈ pre, q.FormName = "file" → q.filename = "")
    (hname : p.FormName = "file") (hfn : p.filename ≠ "")
    (hparse : ParseMultipartForm o s r (10 <<< 20) = (.ok form, sp))
    (hcreate : CreateTemp o sp "" "upload-*" = (.ok tf, s1))
    (hcopy : o.copyErr = none) (hput : o.putErr = none) :
    putCalls (uploadHandler cfg o r ResponseWriter.fresh s).2.trace =
        putCalls s.trace ++
          [Call.PutObject cfg.Bucket (cfg.S3KeyPath ++ Base p.filename) p.Content
            ObjectCannedACLPrivate] ∧
      (uploadHandler cfg o r ResponseWriter.fresh s).1.status = 200 ∧
      (uploadHandler cfg o r ResponseWriter.fresh s).1.body = "File uploaded successfully!" := by
  obtain ⟨hdr, hfile, hbase⟩ :=
    ParseMultipartForm_first_file o s sp r _ form pre p post hparts hpre hname hfn hparse
  have hputs := putCalls_decoded o s r (10 <<< 20)
  rw [hparse] at hputs
  rw [uploadHandler_staged cfg o r _ s sp s1 form p.Content hdr tf hparse hfile hcreate]
  simp only [hcopy, hput, hbase]
  refine ⟨?_, rfl, ?_⟩
  · rw [putCalls_append, hputs]
    rfl
  · rw [Write_fresh]
    exact body_of_writes_singleton _ _ _ _

/-- C1 amended, on the scenario of the specification (no variable set, `report.pdf` put at
`uploads/report.pdf` of `my-bucket`) and on the declared name `a/b.txt`. -/
theorem uploadHandler_success_witness :
    (putCalls (uploadHandler (loadConfig emptyEnv) oracleOk reportRequest ResponseWriter.fresh
        emptyWorld).2.trace =
        [Call.PutObject "my-bucket" "uploads/report.pdf" pdfBytes "private"] ∧
      (uploadHandler (loadConfig emptyEnv) oracleOk reportRequest ResponseWriter.fresh
        emptyWorld).1.status = 200 ∧
      (uploadHandler (loadConfig emptyEnv) oracleOk reportRequest ResponseWriter.fresh
        emptyWorld).1.body = "File uploaded successfully!") ∧
    (putCalls (uploadHandler (loadConfig emptyEnv) oracleOk nestedRequest ResponseWriter.fresh
        emptyWorld).2.trace =
        [Call.PutObject "my-bucket" "uploads/b.txt" [0x78] "private"] ∧
      (uploadHandler (loadConfig emptyEnv) oracleOk nestedRequest ResponseWriter.fresh
        emptyWorld).1.status = 200 ∧
      (uploadHandler (loadConfig emptyEnv) oracleOk nestedRequest ResponseWriter.fresh
        emptyWorld).1.body = "File uploaded successfully!") :=
  ⟨uploadHandler_success (loadConfig emptyEnv) oracleOk reportRequest emptyWorld emptyWorld
      ⟨[("upload-1", [])], ["upload-1"], [], [Call.CreateTemp "" "upload-*"]⟩
      reportForm [] reportPart [] ⟨"upload-1", 0⟩ rfl (fun _ hq => nomatch hq) rfl
      (by decide) rfl rfl rfl rfl,
   uploadHandler_success (loadConfig emptyEnv) oracleOk nestedRequest emptyWorld emptyWorld
      ⟨[("upload-1", [])], ["upload-1"], [], [Call.CreateTemp "" "upload-*"]⟩
      ⟨[], [("file", ⟨"b.txt", 1, some [0x78], "", 0⟩)]⟩ [] nestedPart [] ⟨"upload-1", 0⟩ rfl
      (fun _ hq => nomatch hq) rfl (by decide) rfl rfl rfl rfl⟩

/-- C2, as stated, fails: after a successful upload into an empty temporary directory the
staged file is still there. -/
theorem uploadHandler_leaves_tempfile :
    (uploadHandler (loadConfig emptyEnv) oracleOk reportRequest ResponseWriter.fresh
        emptyWorld).2.tmp = [("upload-1", pdfBytes)] ∧
      (uploadHandler (loadConfig emptyEnv) oracleOk reportRequest ResponseWriter.fresh
        emptyWorld).2.tmp ≠ emptyWorld.tmp := by
  decide

/-- C2, amended: `uploadHandler` closes the temporary file it creates and removes no file.
The multipart decoder only adds to the temporary directory (its `multipart-` file, for file
parts that do not fit in the memory allowed), and what it added is still there when the
handler returns.  On the exits before the staged file exists (unparseable body, no `file`
part, failed creation) the directory is as the decoder left it.  Once the staged file is
created, under a name that was not in the directory, every later exit leaves the directory as
the decoder left it plus that one file: holding the bytes written before the failure after a
failed copy, and the whole content after a failed put (answered 500) and after a successful
upload; the descriptors open before the call are the ones open after it. -/
theorem uploadHandler_tempfile_closed_not_removed (cfg : Config) (o : Oracle) (r : Request)
    (s : World) :
    (∃ spill, (ParseMultipartForm o s r (10 <<< 20)).2.tmp = s.tmp ++ spill) ∧
    (∀ e sp, ParseMultipartForm o s r (10 <<< 20) = (.error e, sp) →
        (uploadHandler cfg o r ResponseWriter.fresh s).2.tmp = sp.tmp) ∧
    (∀ form sp e, ParseMultipartForm o s r (10 <<< 20) = (.ok form, sp) →
        FormFile sp form "file" = .error e →
        (uploadHandler cfg o r ResponseWriter.fresh s).2.tmp = sp.tmp) ∧
    (∀ form sp c hdr, ParseMultipartForm o s r (10 <<< 20) = (.ok form, sp) →
        FormFile sp form "file" = .ok (c, hdr) →
        (∀ e s1, CreateTemp o sp "" "upload-*" = (.error e, s1) →
          (uploadHandler cfg o r ResponseWriter.fresh s).2.tmp = sp.tmp) ∧
        (∀ tf s1, CreateTemp o sp "" "upload-*" = (.ok tf, s1) →
          sp.tmp.lookup tf.name = none ∧
          (uploadHandler cfg o r ResponseWriter.fresh s).2.opened = s.opened ∧
          (∀ n e, o.copyErr = some (n, e) →
            (uploadHandler cfg o r ResponseWriter.fresh s).2.tmp =
              sp.tmp ++ [(tf.name, c.take n)]) ∧
          (o.copyErr = none →
            (uploadHandler cfg o r ResponseWriter.fresh s).2.tmp = sp.tmp ++ [(tf.name, c)]) ∧
          (o.copyErr = none → ∀ e, o.putErr = some e →
            (uploadHandler cfg o r ResponseWriter.fresh s).1.status = 500))) := by
  obtain ⟨spill, issued, hsp, _⟩ := ParseMultipartForm_frame o s r (10 <<< 20)
  refine ⟨⟨spill, by rw [hsp]⟩, ?_, ?_, ?_⟩
  · intro e sp h
    rw [uploadHandler_parse_error cfg o r _ s sp e h]
  · intro form sp e hparse h
    rw [uploadHandler_file_error cfg o r _ s sp form e hparse h]
  · intro form sp c hdr hparse hfile
    rw [hparse] at hsp
    simp only at hsp
    refine ⟨?_, ?_⟩
    · intro e s1 hcreate
      rw [uploadHandler_create_error cfg o r _ s sp s1 form c hdr e hparse hfile hcreate]
    · intro tf s1 hcreate
      have hfresh := (CreateTemp_ok o sp s1 "" "upload-*" tf hcreate).2.1
      have hop : sp.opened = s.opened := by rw [hsp]
      rw [uploadHandler_staged cfg o r _ s sp s1 form c hdr tf hparse hfile hcreate]
      refine ⟨hfresh, ?_, ?_, ?_, ?_⟩
      · cases o.copyErr with
        | some ne => exact hop
        | none => cases o.putErr <;> exact hop
      · intro n e hc
        rw [hc]
      · intro hc
        rw [hc]
        cases o.putErr <;> rfl
      · intro hc e hp
        simp only [hc, hp, Error_fresh]
        rfl

/-- C2 amended, on the sample upload (the staged file `upload-1` stays) and on an upload too
large for memory (the decoder's `multipart-1` and the staged `upload-1` both stay). -/
theorem uploadHandler_tempfile_closed_not_removed_witness :
    (uploadHandler (loadConfig emptyEnv) oracleOk reportRequest ResponseWriter.fresh
        emptyWorld).2.tmp = emptyWorld.tmp ++ [("upload-1", pdfBytes)] ∧
      (uploadHandler (loadConfig emptyEnv) oracleOk bigFileRequest ResponseWriter.fresh
        emptyWorld).2.tmp = [("multipart-1", bigBytes)] ++ [("upload-1", bigBytes)] :=
  ⟨(((uploadHandler_tempfile_closed_not_removed (loadConfig emptyEnv) oracleOk reportRequest
      emptyWorld).2.2.2 reportForm emptyWorld pdfBytes reportHeader rfl rfl).2
      ⟨"upload-1", 0⟩ ⟨[("upload-1", [])], ["upload-1"], [], [Call.CreateTemp "" "upload-*"]⟩
      rfl).2.2.2.1 rfl,
   (((uploadHandler_tempfile_closed_not_removed (loadConfig emptyEnv) oracleOk bigFileRequest
      emptyWorld).2.2.2 ⟨[], [("file", bigFileHeader)]⟩
      ⟨[("multipart-1", bigBytes)], [], [], [Call.CreateTemp "" "multipart-"]⟩ bigBytes
      bigFileHeader (ParseMultipartForm_spilled_file bigBytes bigBytes_length)
      (FormFile_spilled_file bigBytes _ _ _)).2
      ⟨"upload-1", 0⟩
      ⟨[("multipart-1", bigBytes), ("upload-1", [])], ["upload-1"], [],
        [Call.CreateTemp "" "multipart-", Call.CreateTemp "" "upload-*"]⟩
      rfl).2.2.2.1 rfl⟩

/-- C3, as stated, fails: a multipart request without a `file` part, whose one file part is
too large for the memory allowed, is answered 400, yet a temporary file was created while the
body was decoded and is in the temporary directory when the handler returns. -/
theorem uploadHandler_bad_request_creates_spill :
    (uploadHandler (loadConfig emptyEnv) oracleOk bigOtherRequest ResponseWriter.fresh
        emptyWorld).1.status = 400 ∧
      createCalls (uploadHandler (loadConfig emptyEnv) oracleOk bigOtherRequest
        ResponseWriter.fresh emptyWorld).2.trace ≠ createCalls emptyWorld.trace ∧
      (uploadHandler (loadConfig emptyEnv) oracleOk bigOtherRequest ResponseWriter.fresh
        emptyWorld).2.tmp ≠ emptyWorld.tmp := by
  have h : uploadHandler (loadConfig emptyEnv) oracleOk bigOtherRequest ResponseWriter.fresh
      emptyWorld = _ := uploadHandler_spilled_other (loadConfig emptyEnv) bigBytes bigBytes_length
  rw [h, Error_fresh]
  exact ⟨rfl, by decide, List.cons_ne_nil _ _⟩

/-- C3, amended: a request whose multipart body cannot be parsed, or whose parsed form has no
part named `file`, is answered 400; no put is issued, and the handler issues no call of its
own: it returns the world as the decoder left it, so it never creates its staging file.  The
only calls issued are the decoder's `os.CreateTemp("", "multipart-")` for file parts that do
not fit in the memory allowed, and the only change to the temporary directory is what the
decoder added. -/
theorem uploadHandler_bad_request (cfg : Config) (o : Oracle) (r : Request) (s : World)
    (h : (∃ e, (ParseMultipartForm o s r (10 <<< 20)).1 = .error e) ∨
      (∃ form, (ParseMultipartForm o s r (10 <<< 20)).1 = .ok form ∧
        form.File.lookup "file" = none)) :
    (uploadHandler cfg o r ResponseWriter.fresh s).1.status = 400 ∧
      (uploadHandler cfg o r ResponseWriter.fresh s).2 =
        (ParseMultipartForm o s r (10 <<< 20)).2 ∧
      putCalls (uploadHandler cfg o r ResponseWriter.fresh s).2.trace = putCalls s.trace ∧
      (∃ issued, (uploadHandler cfg o r ResponseWriter.fresh s).2.trace = s.trace ++ issued ∧
        ∀ c ∈ issued, c = Call.CreateTemp "" "multipart-") ∧
      (∃ spill, (uploadHandler cfg o r ResponseWriter.fresh s).2.tmp = s.tmp ++ spill) := by
  have hputs := putCalls_decoded o s r (10 <<< 20)
  obtain ⟨spill, issued, hsp, hiss⟩ := ParseMultipartForm_frame o s r (10 <<< 20)
  have hrun : uploadHandler cfg o r ResponseWriter.fresh s =
      (Error ResponseWriter.fresh "Unable to parse form" StatusBadRequest,
        (ParseMultipartForm o s r (10 <<< 20)).2) ∨
      uploadHandler cfg o r ResponseWriter.fresh s =
      (Error ResponseWriter.fresh "Error retrieving the file" StatusBadRequest,
        (ParseMultipartForm o s r (10 <<< 20)).2) := by
    rcases hp : ParseMultipartForm o s r (10 <<< 20) with ⟨res, sp⟩
    rw [hp] at h
    rcases h with ⟨e, h⟩ | ⟨form, h, hnone⟩
    · simp only at h
      subst h
      exact Or.inl (uploadHandler_parse_error cfg o r _ s sp e hp)
    · simp only at h
      subst h
      exact Or.inr (uploadHandler_file_error cfg o r _ s sp form _ hp
        (FormFile_no_part sp form hnone))
  rcases hrun with hrun | hrun <;> rw [hrun, Error_fresh] <;>
    exact ⟨rfl, rfl, hputs, ⟨issued, by rw [hsp], hiss⟩, ⟨spill, by rw [hsp]⟩⟩

/-- C3 amended, on a request whose body is not multipart form data, on a multipart request
without a `file` part, and on one whose only file part is under another field and is spilled
to disk. -/
theorem uploadHandler_bad_request_witness :
    ((uploadHandler (loadConfig emptyEnv) oracleOk garbledRequest ResponseWriter.fresh
        emptyWorld).1.status = 400 ∧
      putCalls (uploadHandler (loadConfig emptyEnv) oracleOk garbledRequest
        ResponseWriter.fresh emptyWorld).2.trace = putCalls emptyWorld.trace) ∧
    ((uploadHandler (loadConfig emptyEnv) oracleOk noFileRequest ResponseWriter.fresh
        emptyWorld).1.status = 400 ∧
      putCalls (uploadHandler (loadConfig emptyEnv) oracleOk noFileRequest
        ResponseWriter.fresh emptyWorld).2.trace = putCalls emptyWorld.trace) ∧
    ((uploadHandler (loadConfig emptyEnv) oracleOk bigOtherRequest ResponseWriter.fresh
        emptyWorld).1.status = 400 ∧
      putCalls (uploadHandler (loadConfig emptyEnv) oracleOk bigOtherRequest
        ResponseWriter.fresh emptyWorld).2.trace = putCalls emptyWorld.trace) :=
  ⟨⟨(uploadHandler_bad_request (loadConfig emptyEnv) oracleOk garbledRequest emptyWorld
      (Or.inl ⟨"request Content-Type is not multipart/form-data", rfl⟩)).1,
    (uploadHandler_bad_request (loadConfig emptyEnv) oracleOk garbledRequest emptyWorld
      (Or.inl ⟨"request Content-Type is not multipart/form-data", rfl⟩)).2.2.1⟩,
   ⟨(uploadHandler_bad_request (loadConfig emptyEnv) oracleOk noFileRequest emptyWorld
      (Or.inr ⟨⟨[("note", [0x68, 0x69])], []⟩, rfl, rfl⟩)).1,
    (uploadHandler_bad_request (loadConfig emptyEnv) oracleOk noFileRequest emptyWorld
      (Or.inr ⟨⟨[("note", [0x68, 0x69])], []⟩, rfl, rfl⟩)).2.2.1⟩,
   ⟨(uploadHandler_bad_request (loadConfig emptyEnv) oracleOk bigOtherRequest emptyWorld
      (Or.inr ⟨⟨[], [("other", ⟨"big.bin", bigBytes.length, none, "multipart-1", 0⟩)]⟩,
        congrArg Prod.fst (ParseMultipartForm_spilled_other bigBytes bigBytes_length),
        rfl⟩)).1,
    (uploadHandler_bad_request (loadConfig emptyEnv) oracleOk bigOtherRequest emptyWorld
      (Or.inr ⟨⟨[], [("other", ⟨"big.bin", bigBytes.length, none, "multipart-1", 0⟩)]⟩,
        congrArg Prod.fst (ParseMultipartForm_spilled_other bigBytes bigBytes_length),
        rfl⟩)).2.2.1⟩⟩

/-- C4: for a request whose multipart body parses and holds a `file` part, a failure to create
the temporary file or to copy the content into it is answered 500 with no put issued; and when
staging succeeds and the put fails with error `e`, the answer is 500 with the single body line
`Error uploading file: failed to upload to s3: ` followed by `e` and a newline, and the success
body is never written. -/
theorem uploadHandler_failures (cfg : Config) (o : Oracle) (r : Request) (s sp : World)
    (form : Form) (c : Bytes) (hdr : FileHeader)
    (hparse : ParseMultipartForm o s r (10 <<< 20) = (.ok form, sp))
    (hfile : FormFile sp form "file" = .ok (c, hdr)) :
    (∀ e s1, CreateTemp o sp "" "upload-*" = (.error e, s1) →
        (uploadHandler cfg o r ResponseWriter.fresh s).1.status = 500 ∧
        putCalls (uploadHandler cfg o r ResponseWriter.fresh s).2.trace = putCalls s.trace) ∧
    (∀ tf s1 n e, CreateTemp o sp "" "upload-*" = (.ok tf, s1) → o.copyErr = some (n, e) →
        (uploadHandler cfg o r ResponseWriter.fresh s).1.status = 500 ∧
        putCalls (uploadHandler cfg o r ResponseWriter.fresh s).2.trace = putCalls s.trace) ∧
    (∀ tf s1 e, CreateTemp o sp "" "upload-*" = (.ok tf, s1) → o.copyErr = none →
        o.putErr = some e →
        (uploadHandler cfg o r ResponseWriter.fresh s).1.status = 500 ∧
        (uploadHandler cfg o r ResponseWriter.fresh s).1.body =
          "Error uploading file: failed to upload to s3: " ++ e ++ "\n" ∧
        (uploadHandler cfg o r ResponseWriter.fresh s).1.writes =
          ["Error uploading file: failed to upload to s3: " ++ e ++ "\n"] ∧
        "File uploaded successfully!" ∉
          (uploadHandler cfg o r ResponseWriter.fresh s).1.writes) := by
  have hputs := putCalls_decoded o s r (10 <<< 20)
  rw [hparse] at hputs
  refine ⟨?_, ?_, ?_⟩
  · intro e s1 hcreate
    rw [uploadHandler_create_error cfg o r _ s sp s1 form c hdr e hparse hfile hcreate,
      Error_fresh]
    refine ⟨rfl, ?_⟩
    simp only [putCalls_append, hputs]
    exact List.append_nil _
  · intro tf s1 n e hcreate hc
    rw [uploadHandler_staged cfg o r _ s sp s1 form c hdr tf hparse hfile hcreate]
    simp only [hc, Error_fresh]
    refine ⟨rfl, ?_⟩
    simp only [putCalls_append, hputs]
    exact List.append_nil _
  · intro tf s1 e hcreate hc hp
    rw [uploadHandler_staged cfg o r _ s sp s1 form c hdr tf hparse hfile hcreate]
    simp only [hc, hp, Error_fresh]
    have hline : "Error uploading file: " ++ ("failed to upload to s3: " ++ e) ++ "\n" =
        "Error uploading file: failed to upload to s3: " ++ e ++ "\n" := by
      rw [← String.append_assoc]
      rfl
    refine ⟨rfl, ?_, ?_, ?_⟩
    · rw [body_of_writes_singleton, hline]
    · simp only [hline]
    · simp only [List.mem_singleton]
      exact fun h => error_line_ne_success e h.symm

/-- C4 on the sample upload: when the temporary file cannot be created, when the copy fails
after two bytes, and when the store rejects the put with `AccessDenied`. -/
theorem uploadHandler_failures_witness :
    ((uploadHandler (loadConfig emptyEnv) oracleCreateFails reportRequest ResponseWriter.fresh
        emptyWorld).1.status = 500 ∧
      putCalls (uploadHandler (loadConfig emptyEnv) oracleCreateFails reportRequest
        ResponseWriter.fresh emptyWorld).2.trace = putCalls emptyWorld.trace) ∧
    ((uploadHandler (loadConfig emptyEnv) oracleCopyFails reportRequest ResponseWriter.fresh
        emptyWorld).1.status = 500 ∧
      putCalls (uploadHandler (loadConfig emptyEnv) oracleCopyFails reportRequest
        ResponseWriter.fresh emptyWorld).2.trace = putCalls emptyWorld.trace) ∧
    ((uploadHandler (loadConfig emptyEnv) oraclePutFails reportRequest ResponseWriter.fresh
        emptyWorld).1.status = 500 ∧
      (uploadHandler (loadConfig emptyEnv) oraclePutFails reportRequest ResponseWriter.fresh
        emptyWorld).1.body =
        "Error uploading file: failed to upload to s3: " ++ "AccessDenied" ++ "\n" ∧
      (uploadHandler (loadConfig emptyEnv) oraclePutFails reportRequest ResponseWriter.fresh
        emptyWorld).1.writes =
        ["Error uploading file: failed to upload to s3: " ++ "AccessDenied" ++ "\n"] ∧
      "File uploaded successfully!" ∉
        (uploadHandler (loadConfig emptyEnv) oraclePutFails reportRequest
          ResponseWriter.fresh emptyWorld).1.writes) :=
  ⟨(uploadHandler_failures (loadConfig emptyEnv) oracleCreateFails reportRequest emptyWorld
      emptyWorld reportForm pdfBytes reportHeader rfl rfl).1 "permission denied"
      ⟨[], [], [], [Call.CreateTemp "" "upload-*"]⟩ rfl,
   (uploadHandler_failures (loadConfig emptyEnv) oracleCopyFails reportRequest emptyWorld
      emptyWorld reportForm pdfBytes reportHeader rfl rfl).2.1 ⟨"upload-1", 0⟩
      ⟨[("upload-1", [])], ["upload-1"], [], [Call.CreateTemp "" "upload-*"]⟩ 2
      "no space left on device" rfl rfl,
   (uploadHandler_failures (loadConfig emptyEnv) oraclePutFails reportRequest emptyWorld
      emptyWorld reportForm pdfBytes reportHeader rfl rfl).2.2 ⟨"upload-1", 0⟩
      ⟨[("upload-1", [])], ["upload-1"], [], [Call.CreateTemp "" "upload-*"]⟩ "AccessDenied"
      rfl rfl rfl⟩

/-- C5: `getenv_default` returns the value of the variable when it is set to a non-empty
string and the default otherwise (unset, or set to the empty string); hence `Region`,
`Bucket`, `S3KeyPath` and the listen port resolve from `AWS_REGION`, `S3_BUCKET`,
`S3_KEY_PATH` and `PORT` with defaults `us-east-1`, `my-bucket`, `uploads/` and `8080`, and
with all four unset they are exactly those defaults. -/
theorem configuration_resolves (env : Env) (key d : String) :
    (∀ v, env.lookup key = some v → v ≠ "" → getenv_default env key d = v) ∧
      (env.lookup key = none ∨ env.lookup key = some "" → getenv_default env key d = d) ∧
      loadConfig env =
        ⟨getenv_default env "AWS_REGION" "us-east-1", getenv_default env "S3_BUCKET" "my-bucket",
         getenv_default env "S3_KEY_PATH" "uploads/"⟩ ∧
      port env = getenv_default env "PORT" "8080" ∧
      (env.lookup "AWS_REGION" = none → env.lookup "S3_BUCKET" = none →
        env.lookup "S3_KEY_PATH" = none → env.lookup "PORT" = none →
        loadConfig env = ⟨"us-east-1", "my-bucket", "uploads/"⟩ ∧ port env = "8080") := by
  refine ⟨?_, ?_, rfl, rfl, ?_⟩
  · intro v h hv
    simp [getenv_default, Getenv, h, hv]
  · rintro (h | h) <;> simp [getenv_default, Getenv, h]
  · intro h1 h2 h3 h4
    simp [loadConfig, Region, Bucket, S3KeyPath, port, getenv_default, Getenv, h1, h2, h3, h4]

/-- C5 on two environments: with nothing set the defaults are used; with `S3_BUCKET=archive`
and an empty `PORT` the bucket is `archive` and the port is the default. -/
theorem configuration_resolves_witness :
    (loadConfig emptyEnv = ⟨"us-east-1", "my-bucket", "uploads/"⟩ ∧ port emptyEnv = "8080") ∧
      getenv_default sampleEnv "S3_BUCKET" "my-bucket" = "archive" ∧
      getenv_default sampleEnv "PORT" "8080" = "8080" :=
  ⟨(configuration_resolves emptyEnv "PORT" "8080").2.2.2.2 rfl rfl rfl rfl,
   (configuration_resolves sampleEnv "S3_BUCKET" "my-bucket").1 "archive" rfl (by decide),
   (configuration_resolves sampleEnv "PORT" "8080").2.1 (Or.inr rfl)⟩

/-- C6: whatever the request (method, headers, query string, body), `listFilesHandler` issues
exactly one call to the store, a list with the configured bucket and the configured
`S3KeyPath` as prefix; so any two requests under one configuration issue the same list call,
and no other prefix is used. -/
theorem listFilesHandler_one_list_call (cfg : Config) (s : World) (o1 o2 : Oracle)
    (r1 r2 : Request) (w1 w2 : ResponseWriter) :
    (listFilesHandler cfg o1 r1 w1 s).2.trace =
        s.trace ++ [Call.ListObjectsV2 cfg.Bucket cfg.S3KeyPath] ∧
      listCalls (listFilesHandler cfg o1 r1 w1 s).2.trace =
        listCalls s.trace ++ [Call.ListObjectsV2 cfg.Bucket cfg.S3KeyPath] ∧
      putCalls (listFilesHandler cfg o1 r1 w1 s).2.trace = putCalls s.trace ∧
      (listFilesHandler cfg o1 r1 w1 s).2.trace = (listFilesHandler cfg o2 r2 w2 s).2.trace := by
  rw [listFilesHandler_eq cfg o1 r1 w1 s, listFilesHandler_eq cfg o2 r2 w2 s]
  cases o1.listErr <;> cases o2.listErr <;> simp [listCalls, putCalls, List.filter_append]

/-- C7: the response of `listFilesHandler` is fixed by the result of the store's list.  When
the list succeeds with keys `k1 .. kn`, the answer is 200 and the body is `Files in S3: [`,
the keys in the order returned separated by single spaces, and `]`; that is `Files in S3: []`
for no keys and `Files in S3: [uploads/a.txt uploads/b.txt]` for those two keys.  When the list
fails with error `e`, the answer is 500 and the body holds the text of `e`. -/
theorem listFilesHandler_response (cfg : Config) (o : Oracle) (r : Request) (s : World) :
    (∀ resp s1, ListObjectsV2 o s ⟨cfg.Bucket, cfg.S3KeyPath⟩ = (.ok resp, s1) →
        (listFilesHandler cfg o r ResponseWriter.fresh s).1.status = 200 ∧
        (listFilesHandler cfg o r ResponseWriter.fresh s).1.body =
          "Files in S3: [" ++ " ".intercalate (resp.Contents.map (fun item => item.Key))
            ++ "]") ∧
    (∀ e s1, ListObjectsV2 o s ⟨cfg.Bucket, cfg.S3KeyPath⟩ = (.error e, s1) →
        (listFilesHandler cfg o r ResponseWriter.fresh s).1.status = 500 ∧
        (listFilesHandler cfg o r ResponseWriter.fresh s).1.body =
          "Error listing files: " ++ e ++ "\n") ∧
    (listFilesHandler (loadConfig emptyEnv) oracleOk r ResponseWriter.fresh emptyWorld).1.body =
      "Files in S3: []" ∧
    (listFilesHandler (loadConfig emptyEnv) oracleOk r ResponseWriter.fresh
      twoFilesWorld).1.body = "Files in S3: [uploads/a.txt uploads/b.txt]" := by
  refine ⟨?_, ?_, ?_, ?_⟩
  · intro resp s1 h
    rw [listFilesHandler_ok cfg o r _ s s1 resp h, Write_fresh]
    refine ⟨rfl, ?_⟩
    rw [body_of_writes_singleton]
    simp only [fmtStrings, String.append_assoc]
    rw [← String.append_assoc "Files in S3: " "["]
    rfl
  · intro e s1 h
    rw [listFilesHandler_error cfg o r _ s s1 e h, Error_fresh]
    exact ⟨rfl, body_of_writes_singleton _ _ _ _⟩
  · rfl
  · rfl

/-- C7 on a store that rejects the list with `AccessDenied`, and on a store holding two keys
under the prefix. -/
theorem listFilesHandler_response_witness :
    ((listFilesHandler (loadConfig emptyEnv) oracleListFails listRequest ResponseWriter.fresh
        emptyWorld).1.status = 500 ∧
      (listFilesHandler (loadConfig emptyEnv) oracleListFails listRequest ResponseWriter.fresh
        emptyWorld).1.body = "Error listing files: " ++ "AccessDenied" ++ "\n") ∧
    ((listFilesHandler (loadConfig emptyEnv) oracleOk listRequest ResponseWriter.fresh
        twoFilesWorld).1.status = 200 ∧
      (listFilesHandler (loadConfig emptyEnv) oracleOk listRequest ResponseWriter.fresh
        twoFilesWorld).1.body =
        "Files in S3: [" ++ " ".intercalate ["uploads/a.txt", "uploads/b.txt"] ++ "]") :=
  ⟨(listFilesHandler_response (loadConfig emptyEnv) oracleListFails listRequest emptyWorld).2.1
      "AccessDenied" ⟨[], [], [], [Call.ListObjectsV2 "my-bucket" "uploads/"]⟩ rfl,
   (listFilesHandler_response (loadConfig emptyEnv) oracleOk listRequest twoFilesWorld).1
      ⟨[⟨"uploads/a.txt"⟩, ⟨"uploads/b.txt"⟩]⟩
      ⟨[], [], twoFilesWorld.objects, [Call.ListObjectsV2 "my-bucket" "uploads/"]⟩ rfl⟩

/-- C10: for every request method and body the `/healthz` handler answers 200 with an empty
body and issues no call to the store, neither put nor list. -/
theorem healthzHandler_ok (cfg : Config) (o : Oracle) (r : Request) (s : World) :
    (healthzHandler cfg o r ResponseWriter.fresh s).1.status = 200 ∧
      (healthzHandler cfg o r ResponseWriter.fresh s).1.writes = [] ∧
      (healthzHandler cfg o r ResponseWriter.fresh s).1.body = "" ∧
      (healthzHandler cfg o r ResponseWriter.fresh s).2 = s ∧
      putCalls (healthzHandler cfg o r ResponseWriter.fresh s).2.trace = putCalls s.trace ∧
      listCalls (healthzHandler cfg o r ResponseWriter.fresh s).2.trace = listCalls s.trace :=
  ⟨rfl, rfl, rfl, rfl, rfl, rfl⟩

/-- C8: every key `uploadHandler` passes to a put begins with the configured `S3KeyPath`,
whatever the request and its file name (empty, or holding `/` or `..`); and every key of the
result that `listFilesHandler` renders begins with that same prefix. -/
theorem keys_under_S3KeyPath (cfg : Config) (o : Oracle) (r : Request)
    (w : ResponseWriter) (s : World) :
    (∃ issued, (uploadHandler cfg o r w s).2.trace = s.trace ++ issued ∧
        ∀ b k body acl, Call.PutObject b k body acl ∈ issued →
          startsWith k cfg.S3KeyPath = true) ∧
    (∀ resp s1, ListObjectsV2 o s ⟨cfg.Bucket, cfg.S3KeyPath⟩ = (.ok resp, s1) →
        (listFilesHandler cfg o r w s).1 =
          Write (WriteHeader w StatusOK)
            ("Files in S3: " ++ fmtStrings (resp.Contents.map (fun item => item.Key))) ∧
        ∀ k ∈ resp.Contents.map (fun item => item.Key), startsWith k cfg.S3KeyPath = true) := by
  constructor
  · obtain ⟨spill, issued, hsp, hiss⟩ := ParseMultipartForm_frame o s r (10 <<< 20)
    have hnoput : ∀ b k body acl, Call.PutObject b k body acl ∈ issued →
        startsWith k cfg.S3KeyPath = true := by
      intro b k body acl hmem
      cases hiss _ hmem
    rcases hparse : ParseMultipartForm o s r (10 <<< 20) with ⟨e | form, sp⟩
    · rw [uploadHandler_parse_error cfg o r w s sp e hparse]
      rw [hparse] at hsp
      exact ⟨issued, by rw [hsp], hnoput⟩
    · rw [hparse] at hsp
      simp only at hsp
      rcases hfile : FormFile sp form "file" with e | ⟨c, hdr⟩
      · rw [uploadHandler_file_error cfg o r w s sp form e hparse hfile]
        exact ⟨issued, by rw [hsp], hnoput⟩
      · rcases hcreate : CreateTemp o sp "" "upload-*" with ⟨e | tf, s1⟩
        · rw [uploadHandler_create_error cfg o r w s sp s1 form c hdr e hparse hfile hcreate]
          refine ⟨issued ++ [Call.CreateTemp "" "upload-*"], by rw [hsp]; simp, ?_⟩
          intro b k body acl hmem
          rcases List.mem_append.mp hmem with hmem | hmem
          · exact hnoput b k body acl hmem
          · simp at hmem
        · rw [uploadHandler_staged cfg o r w s sp s1 form c hdr tf hparse hfile hcreate]
          cases o.copyErr with
          | some ne =>
            refine ⟨issued ++ [Call.CreateTemp "" "upload-*"], by rw [hsp]; simp, ?_⟩
            intro b k body acl hmem
            rcases List.mem_append.mp hmem with hmem | hmem
            · exact hnoput b k body acl hmem
            · simp at hmem
          | none =>
            have hkey : ∀ b k body acl,
                Call.PutObject b k body acl ∈
                  issued ++ [Call.CreateTemp "" "upload-*",
                    Call.PutObject cfg.Bucket (cfg.S3KeyPath ++ hdr.Filename) c
                      ObjectCannedACLPrivate] →
                startsWith k cfg.S3KeyPath = true := by
              intro b k body acl hmem
              rcases List.mem_append.mp hmem with hmem | hmem
              · exact hnoput b k body acl hmem
              · simp only [List.mem_cons, List.mem_singleton, Call.PutObject.injEq,
                  List.not_mem_nil, or_false] at hmem
                rcases hmem with hmem | hmem
                · cases hmem
                · rw [hmem.2.1]
                  exact startsWith_append _ _
            cases o.putErr with
            | some e => exact ⟨_, by rw [hsp]; simp, hkey⟩
            | none => exact ⟨_, by rw [hsp]; simp, hkey⟩
  · intro resp s1 h
    rw [listFilesHandler_ok cfg o r w s s1 resp h]
    refine ⟨rfl, ?_⟩
    intro k hk
    obtain ⟨item, hitem, rfl⟩ := List.mem_map.mp hk
    exact ListObjectsV2_keys o s s1 _ resp h item hitem

/-- C8 on an upload whose declared file name is `../../etc/passwd`, and on a store that also
holds a key outside the prefix: the rendered keys are the two under `uploads/`. -/
theorem keys_under_S3KeyPath_witness :
    (∃ issued, (uploadHandler (loadConfig emptyEnv) oracleOk traversalRequest
        ResponseWriter.fresh emptyWorld).2.trace = emptyWorld.trace ++ issued ∧
        ∀ b k body acl, Call.PutObject b k body acl ∈ issued →
          startsWith k "uploads/" = true) ∧
    ((listFilesHandler (loadConfig emptyEnv) oracleOk listRequest ResponseWriter.fresh
        twoFilesWorld).1 =
      Write (WriteHeader ResponseWriter.fresh StatusOK)
        ("Files in S3: " ++ fmtStrings ["uploads/a.txt", "uploads/b.txt"]) ∧
      ∀ k ∈ ["uploads/a.txt", "uploads/b.txt"], startsWith k "uploads/" = true) :=
  ⟨(keys_under_S3KeyPath (loadConfig emptyEnv) oracleOk traversalRequest ResponseWriter.fresh
      emptyWorld).1,
   (keys_under_S3KeyPath (loadConfig emptyEnv) oracleOk listRequest ResponseWriter.fresh
      twoFilesWorld).2 ⟨[⟨"uploads/a.txt"⟩, ⟨"uploads/b.txt"⟩]⟩
      ⟨[], [], twoFilesWorld.objects, [Call.ListObjectsV2 "my-bucket" "uploads/"]⟩ rfl⟩

/-- C9, as stated, fails: after uploading the declared name `a/b.txt` twice, the store holds
no object at key `S3KeyPath ++ f`; the one object is at `uploads/b.txt`. -/
theorem uploadHandler_twice_not_at_declared_name :
    (uploadHandler (loadConfig emptyEnv) oracleOk nestedRequest ResponseWriter.fresh
        (uploadHandler (loadConfig emptyEnv) oracleOk nestedRequest ResponseWriter.fresh
          emptyWorld).2).2.objects = [(("my-bucket", "uploads/b.txt"), [0x78])] ∧
      (uploadHandler (loadConfig emptyEnv) oracleOk nestedRequest ResponseWriter.fresh
        (uploadHandler (loadConfig emptyEnv) oracleOk nestedRequest ResponseWriter.fresh
          emptyWorld).2).2.objects.filter
          (fun p => p.1 == ((loadConfig emptyEnv).Bucket,
            (loadConfig emptyEnv).S3KeyPath ++ nestedPart.filename)) ≠
        [(((loadConfig emptyEnv).Bucket,
          (loadConfig emptyEnv).S3KeyPath ++ nestedPart.filename), nestedPart.Content)] := by
  decide

/-- C9, amended: with the store a map from key to content in which a put overwrites, running
`uploadHandler` twice on the same request, whose first file part under `file` declares the
non-empty file name `f` and has content `c`, with decoding, staging and put succeeding both
times, answers 200 both times and leaves the store as it was after the first run, holding
exactly one object at key `S3KeyPath ++ Base f` (the last path element of `f`), with the
uploaded content. -/
theorem uploadHandler_twice (cfg : Config) (o1 o2 : Oracle) (r : Request)
    (s sp1 s1 sp2 s2 : World) (form1 form2 : Form) (pre : List Part) (p : Part)
    (post : List Part) (tf1 tf2 : File)
    (hparts : r.Multipart = .ok (pre ++ p :: post))
    (hpre : ∀ q ∈ pre, q.FormName = "file" → q.filename = "")
    (hname : p.FormName = "file") (hfn : p.filename ≠ "")
    (hparse1 : ParseMultipartForm o1 s r (10 <<< 20) = (.ok form1, sp1))
    (hcreate1 : CreateTemp o1 sp1 "" "upload-*" = (.ok tf1, s1))
    (hcopy1 : o1.copyErr = none) (hput1 : o1.putErr = none)
    (hparse2 : ParseMultipartForm o2 (uploadHandler cfg o1 r ResponseWriter.fresh s).2 r
      (10 <<< 20) = (.ok form2, sp2))
    (hcreate2 : CreateTemp o2 sp2 "" "upload-*" = (.ok tf2, s2))
    (hcopy2 : o2.copyErr = none) (hput2 : o2.putErr = none) :
    (uploadHandler cfg o1 r ResponseWriter.fresh s).1.status = 200 ∧
      (uploadHandler cfg o2 r ResponseWriter.fresh
        (uploadHandler cfg o1 r ResponseWriter.fresh s).2).1.status = 200 ∧
      (uploadHandler cfg o2 r ResponseWriter.fresh
        (uploadHandler cfg o1 r ResponseWriter.fresh s).2).2.objects =
        (uploadHandler cfg o1 r ResponseWriter.fresh s).2.objects ∧
      (uploadHandler cfg o2 r ResponseWriter.fresh
        (uploadHandler cfg o1 r ResponseWriter.fresh s).2).2.objects.filter
          (fun x => x.1 == (cfg.Bucket, cfg.S3KeyPath ++ Base p.filename)) =
        [((cfg.Bucket, cfg.S3KeyPath ++ Base p.filename), p.Content)] := by
  obtain ⟨hdr1, hfile1, hbase1⟩ :=
    ParseMultipartForm_first_file o1 s sp1 r _ form1 pre p post hparts hpre hname hfn hparse1
  obtain ⟨hdr2, hfile2, hbase2⟩ :=
    ParseMultipartForm_first_file o2 _ sp2 r _ form2 pre p post hparts hpre hname hfn hparse2
  obtain ⟨spill1, issued1, hsp1, _⟩ := ParseMultipartForm_frame o1 s r (10 <<< 20)
  rw [hparse1] at hsp1
  simp only at hsp1
  have hrun1 := uploadHandler_staged cfg o1 r ResponseWriter.fresh s sp1 s1 form1 p.Content
    hdr1 tf1 hparse1 hfile1 hcreate1
  simp only [hcopy1, hput1, hbase1] at hrun1
  obtain ⟨spill2, issued2, hsp2, _⟩ := ParseMultipartForm_frame o2
    (uploadHandler cfg o1 r ResponseWriter.fresh s).2 r (10 <<< 20)
  rw [hparse2] at hsp2
  simp only at hsp2
  have hrun2 := uploadHandler_staged cfg o2 r ResponseWriter.fresh _ sp2 s2 form2 p.Content
    hdr2 tf2 hparse2 hfile2 hcreate2
  simp only [hcopy2, hput2, hbase2] at hrun2
  have hob2 : sp2.objects = (uploadHandler cfg o1 r ResponseWriter.fresh s).2.objects := by
    rw [hsp2]
  rw [hrun2, hob2, hrun1]
  have hob1 : sp1.objects = s.objects := by rw [hsp1]
  refine ⟨rfl, rfl, ?_, ?_⟩
  · simp [List.filter_filter]
  · simp [List.filter_filter]

/-- C9 amended, on the sample upload and on the declared name `a/b.txt`, each run twice from
an empty store: the second run stages under the next free name and the store holds the object
once, at `uploads/report.pdf` and at `uploads/b.txt`. -/
theorem uploadHandler_twice_witness :
    ((uploadHandler (loadConfig emptyEnv) oracleOk reportRequest ResponseWriter.fresh
        (uploadHandler (loadConfig emptyEnv) oracleOk reportRequest ResponseWriter.fresh
          emptyWorld).2).1.status = 200 ∧
      (uploadHandler (loadConfig emptyEnv) oracleOk reportRequest ResponseWriter.fresh
        (uploadHandler (loadConfig emptyEnv) oracleOk reportRequest ResponseWriter.fresh
          emptyWorld).2).2.objects.filter
          (fun x => x.1 == ("my-bucket", "uploads/report.pdf")) =
        [(("my-bucket", "uploads/report.pdf"), pdfBytes)]) ∧
    ((uploadHandler (loadConfig emptyEnv) oracleOk nestedRequest ResponseWriter.fresh
        (uploadHandler (loadConfig emptyEnv) oracleOk nestedRequest ResponseWriter.fresh
          emptyWorld).2).1.status = 200 ∧
      (uploadHandler (loadConfig emptyEnv) oracleOk nestedRequest ResponseWriter.fresh
        (uploadHandler (loadConfig emptyEnv) oracleOk nestedRequest ResponseWriter.fresh
          emptyWorld).2).2.objects.filter
          (fun x => x.1 == ("my-bucket", "uploads/b.txt")) =
        [(("my-bucket", "uploads/b.txt"), [0x78])]) :=
  ⟨⟨(uploadHandler_twice (loadConfig emptyEnv) oracleOk oracleOk reportRequest emptyWorld
      emptyWorld ⟨[("upload-1", [])], ["upload-1"], [], [Call.CreateTemp "" "upload-*"]⟩
      ⟨[("upload-1", pdfBytes)], [], [(("my-bucket", "uploads/report.pdf"), pdfBytes)],
        [Call.CreateTemp "" "upload-*",
          Call.PutObject "my-bucket" "uploads/report.pdf" pdfBytes "private"]⟩
      ⟨[("upload-1", pdfBytes), ("upload-2", [])], ["upload-2"],
        [(("my-bucket", "uploads/report.pdf"), pdfBytes)],
        [Call.CreateTemp "" "upload-*",
          Call.PutObject "my-bucket" "uploads/report.pdf" pdfBytes "private",
          Call.CreateTemp "" "upload-*"]⟩
      reportForm reportForm [] reportPart [] ⟨"upload-1", 0⟩ ⟨"upload-2", 0⟩
      rfl (fun _ hq => nomatch hq) rfl (by decide) rfl rfl rfl rfl rfl rfl rfl rfl).2.1,
    (uploadHandler_twice (loadConfig emptyEnv) oracleOk oracleOk reportRequest emptyWorld
      emptyWorld ⟨[("upload-1", [])], ["upload-1"], [], [Call.CreateTemp "" "upload-*"]⟩
      ⟨[("upload-1", pdfBytes)], [], [(("my-bucket", "uploads/report.pdf"), pdfBytes)],
        [Call.CreateTemp "" "upload-*",
          Call.PutObject "my-bucket" "uploads/report.pdf" pdfBytes "private"]⟩
      ⟨[("upload-1", pdfBytes), ("upload-2", [])], ["upload-2"],
        [(("my-bucket", "uploads/report.pdf"), pdfBytes)],
        [Call.CreateTemp "" "upload-*",
          Call.PutObject "my-bucket" "uploads/report.pdf" pdfBytes "private",
          Call.CreateTemp "" "upload-*"]⟩
      reportForm reportForm [] reportPart [] ⟨"upload-1", 0⟩ ⟨"upload-2", 0⟩
      rfl (fun _ hq => nomatch hq) rfl (by decide) rfl rfl rfl rfl rfl rfl rfl rfl).2.2.2⟩,
   ⟨(uploadHandler_twice (loadConfig emptyEnv) oracleOk oracleOk nestedRequest emptyWorld
      emptyWorld ⟨[("upload-1", [])], ["upload-1"], [], [Call.CreateTemp "" "upload-*"]⟩
      ⟨[("upload-1", [0x78])], [], [(("my-bucket", "uploads/b.txt"), [0x78])],
        [Call.CreateTemp "" "upload-*",
          Call.PutObject "my-bucket" "uploads/b.txt" [0x78] "private"]⟩
      ⟨[("upload-1", [0x78]), ("upload-2", [])], ["upload-2"],
        [(("my-bucket", "uploads/b.txt"), [0x78])],
        [Call.CreateTemp "" "upload-*",
          Call.PutObject "my-bucket" "uploads/b.txt" [0x78] "private",
          Call.CreateTemp "" "upload-*"]⟩
      ⟨[], [("file", ⟨"b.txt", 1, some [0x78], "", 0⟩)]⟩
      ⟨[], [("file", ⟨"b.txt", 1, some [0x78], "", 0⟩)]⟩ [] nestedPart []
      ⟨"upload-1", 0⟩ ⟨"upload-2", 0⟩
      rfl (fun _ hq => nomatch hq) rfl (by decide) rfl rfl rfl rfl rfl rfl rfl rfl).2.1,
    (uploadHandler_twice (loadConfig emptyEnv) oracleOk oracleOk nestedRequest emptyWorld
      emptyWorld ⟨[("upload-1", [])], ["upload-1"], [], [Call.CreateTemp "" "upload-*"]⟩
      ⟨[("upload-1", [0x78])], [], [(("my-bucket", "uploads/b.txt"), [0x78])],
        [Call.CreateTemp "" "upload-*",
          Call.PutObject "my-bucket" "uploads/b.txt" [0x78] "private"]⟩
      ⟨[("upload-1", [0x78]), ("upload-2", [])], ["upload-2"],
        [(("my-bucket", "uploads/b.txt"), [0x78])],
        [Call.CreateTemp "" "upload-*",
          Call.PutObject "my-bucket" "uploads/b.txt" [0x78] "private",
          Call.CreateTemp "" "upload-*"]⟩
      ⟨[], [("file", ⟨"b.txt", 1, some [0x78], "", 0⟩)]⟩
      ⟨[], [("file", ⟨"b.txt", 1, some [0x78], "", 0⟩)]⟩ [] nestedPart []
      ⟨"upload-1", 0⟩ ⟨"upload-2", 0⟩
      rfl (fun _ hq => nomatch hq) rfl (by decide) rfl rfl rfl rfl rfl rfl rfl rfl).2.2.2⟩⟩

end S3Uploader
